import Mathlib

/-!
The xmms2 client library: connection, dispatcher and I/O surface

A shallow embedding of `src/clients/lib/xmmsclient/xmmsclient.c`.

* A C string is the list of its characters before the terminating NUL; a
  `char *` that may be `NULL` is an `Option`.
* `uint32_t` values are `Nat` with explicit `% 2^32`; `int` values are `Int`.
* A function that mutates the connection through its pointer returns the new
  connection; calls to `malloc`/`free` and to the transport are recorded in a
  list of `Effect`s so that "nothing was allocated" or "teardown ran" can be
  stated.
* What the outside world decides (whether an allocation succeeds, whether the
  daemon listens, what it replies) is an explicit argument.
-/

namespace Xmms

/-! ## Basic types -/

/-- The characters of a C string, terminator excluded. -/
abbrev CStr := List Char

/-- Characters of a buffer up to (excluding) its first NUL: what a C routine
sees when handed the buffer as a string. -/
def cstr (buf : List Char) : CStr :=
  buf.takeWhile (fun ch => ch.toNat ≠ 0)

/-- The libc `isalnum` in the C locale, on a `char` holding an ASCII code. -/
def isalnum (j : Char) : Bool :=
  (48 ≤ j.toNat && j.toNat ≤ 57) ||
  (65 ≤ j.toNat && j.toNat ≤ 90) ||
  (97 ≤ j.toNat && j.toNat ≤ 122)

/-- The outcome of the two heap requests `xmmsc_init` makes. -/
structure Mem where
  /-- whether `x_new0 (xmmsc_connection_t, 1)` returns a block -/
  x_new0_ok : Bool
  /-- whether `strdup` returns a copy -/
  strdup_ok : Bool
  deriving DecidableEq, Repr

/-- The libc `strdup` on a string: a copy of it, or `NULL` when out of memory.
The argument is a string, never `NULL`: `strdup (NULL)` is undefined, and a
caller that may hold `NULL` meets that case itself. -/
def strdup (ok : Bool) (s : CStr) : Option CStr :=
  if ok then some s else none

/-- The libc `snprintf (buf, size, "%s", s)`: at most `size - 1` characters
of `s` are stored. -/
def snprintf_s (size : Nat) (s : List Char) : CStr :=
  (cstr s).take (size - 1)

/-- A typed argument of an IPC message, in the order it was put. -/
inductive xmms_ipc_arg_t where
  | int32 (v : Int)
  | uint32 (v : Nat)
  | string (s : Option CStr)
  deriving DecidableEq, Repr

/-- An IPC message: target object, operation and the arguments put so far
(`xmms_ipc_msg_new`, `xmms_ipc_msg_put_*`, `xmms_ipc_msg_get_cmd`). -/
structure xmms_ipc_msg_t where
  object : Int
  cmd : Int
  args : List xmms_ipc_arg_t
  deriving DecidableEq, Repr

/-- Modelled from the spec: `xmms_ipc_msg_new` of the message encoder, which
is not under src/. "Message: target object id, command/operation id, ordered
list of typed arguments": a new message has the two ids and no argument. -/
def xmms_ipc_msg_new (object cmd : Int) : xmms_ipc_msg_t :=
  { object := object, cmd := cmd, args := [] }

/-- Modelled from the spec: `xmms_ipc_msg_put_int32` of the message encoder
(not under src/) appends one signed 32-bit argument. -/
def xmms_ipc_msg_put_int32 (msg : xmms_ipc_msg_t) (v : Int) : xmms_ipc_msg_t :=
  { msg with args := msg.args ++ [xmms_ipc_arg_t.int32 v] }

/-- Modelled from the spec: `xmms_ipc_msg_put_uint32` of the message encoder
(not under src/) appends one unsigned 32-bit argument. -/
def xmms_ipc_msg_put_uint32 (msg : xmms_ipc_msg_t) (v : Nat) : xmms_ipc_msg_t :=
  { msg with args := msg.args ++ [xmms_ipc_arg_t.uint32 v] }

/-- Modelled from the spec: `xmms_ipc_msg_put_string` of the message encoder
(not under src/) appends one string argument. -/
def xmms_ipc_msg_put_string (msg : xmms_ipc_msg_t) (s : Option CStr) : xmms_ipc_msg_t :=
  { msg with args := msg.args ++ [xmms_ipc_arg_t.string s] }

/-- Modelled from the spec: `xmms_ipc_msg_get_cmd` of the message encoder
(not under src/) reads the operation id of a message. -/
def xmms_ipc_msg_get_cmd (msg : xmms_ipc_msg_t) : Int :=
  msg.cmd

/-- Modelled from the spec: the transport adapter `xmmsc_ipc_t`, whose code is
not under src/. It "owns a connected byte stream" with "error reporting" and
holds the "buffered bytes not yet flushed to the transport". `out_msg` is the
queue of messages written but not flushed, each with its correlation id;
`flushed` is what has been handed to the byte stream; `flush_calls` counts the
runs of the flush routine. -/
structure xmmsc_ipc_t where
  path : Option CStr
  out_msg : List (xmms_ipc_msg_t × Nat)
  flushed : List (xmms_ipc_msg_t × Nat)
  error : Option CStr
  disconnected : Bool
  flush_calls : Nat
  deriving DecidableEq, Repr

/-- The connection object (`struct xmmsc_connection_St`), with the fields the
source file reads and writes. -/
structure xmmsc_connection_t where
  ref : Int
  ipc : Option xmmsc_ipc_t
  error : Option CStr
  cmd_id : Nat
  clientname : Option CStr
  deriving DecidableEq, Repr

/-- Heap and transport calls a function performs, in program order. -/
inductive Effect where
  | alloc_connection
  | alloc_string (s : CStr)
  | free_connection
  | free_string (s : Option CStr)
  | ipc_destroy (ipc : Option xmmsc_ipc_t)
  deriving DecidableEq, Repr

/-- Number of connection objects allocated and not freed again in a trace. -/
def live_connections (tr : List Effect) : Int :=
  (tr.count Effect.alloc_connection : Int) - (tr.count Effect.free_connection : Int)

/-- Two's complement reduction of an `int` value to 32 bits. -/
def wrap_int (x : Int) : Int :=
  (x + 2 ^ 31) % 2 ^ 32 - 2 ^ 31

/-- The block `x_new0 (xmmsc_connection_t, 1)` returns: every field zero. -/
def x_new0_connection : xmmsc_connection_t :=
  { ref := 0, ipc := none, error := none, cmd_id := 0, clientname := none }

/-! ## Reference counting -/

/-- C function `xmmsc_ref`: a `NULL` connection is rejected, otherwise
`c->ref++`. -/
def xmmsc_ref (c : Option xmmsc_connection_t) : Option xmmsc_connection_t :=
  match c with
  | none => none
  | some c => some { c with ref := wrap_int (c.ref + 1) }

/-- C function `xmmsc_deinit`: destroy the transport, free the error and the
client name, free the connection. -/
def xmmsc_deinit (c : xmmsc_connection_t) : List Effect :=
  [Effect.ipc_destroy c.ipc, Effect.free_string c.error,
   Effect.free_string c.clientname, Effect.free_connection]

/-- What `xmmsc_unref` leaves behind: the connection object (`none` once it
has been released) and the calls performed. -/
structure UnrefResult where
  conn : Option xmmsc_connection_t
  trace : List Effect
  deriving DecidableEq, Repr

/-- C function `xmmsc_unref`. -/
def xmmsc_unref (c : Option xmmsc_connection_t) : UnrefResult :=
  match c with
  | none => { conn := none, trace := [] }
  | some c =>
    if c.ref < 1 then { conn := some c, trace := [] }
    else
      let c1 := { c with ref := wrap_int (c.ref - 1) }
      if c1.ref = 0 then { conn := none, trace := xmmsc_deinit c1 }
      else { conn := some c1, trace := [] }

/-! ## Initialisation -/

/-- The test `!isalnum(j) && j != '_' && j != '-'` of `xmmsc_init`. -/
def invalid_char (j : Char) : Bool :=
  !isalnum j && j != '_' && j != '-'

/-- The `while (clientname[i])` loop of `xmmsc_init`: `false` when it leaves
through the invalid-character branch, `true` when it reaches the terminator. -/
def xmmsc_init_scan : List Char → Bool
  | [] => true
  | j :: rest =>
    if j.toNat = 0 then true
    else if invalid_char j then false
    else xmmsc_init_scan rest

/-- What `xmmsc_init` returns and the heap calls it made. -/
structure InitResult where
  ret : Option xmmsc_connection_t
  trace : List Effect
  deriving DecidableEq, Repr

/-- C function `xmmsc_init`. -/
def xmmsc_init (mem : Mem) (clientname : Option (List Char)) : InitResult :=
  match clientname with
  | none => { ret := none, trace := [] }
  | some name =>
    if !mem.x_new0_ok then { ret := none, trace := [] }
    else
      let c := x_new0_connection
      if !xmmsc_init_scan name then
        { ret := none, trace := [Effect.alloc_connection, Effect.free_connection] }
      else
        match strdup mem.strdup_ok (cstr name) with
        | none =>
          { ret := none, trace := [Effect.alloc_connection, Effect.free_connection] }
        | some s =>
          { ret := xmmsc_ref (some { c with clientname := some s }),
            trace := [Effect.alloc_connection, Effect.alloc_string s] }

/-! ## Command-id allocator and request dispatcher -/

/-- The identifiers of `xmmsc/xmmsc_idnumbers.h` the source file names. The
header is not under src/, so their values are left open. -/
structure xmmsc_idnumbers where
  XMMS_IPC_OBJECT_MAIN : Int
  XMMS_IPC_OBJECT_SIGNAL : Int
  XMMS_IPC_CMD_HELLO : Int
  XMMS_IPC_CMD_SIGNAL : Int
  XMMS_IPC_CMD_BROADCAST : Int
  deriving DecidableEq, Repr

/-- The class tag of a result. -/
inductive xmmsc_result_type_t where
  | XMMSC_RESULT_CLASS_DEFAULT
  | XMMSC_RESULT_CLASS_SIGNAL
  | XMMSC_RESULT_CLASS_BROADCAST
  deriving DecidableEq, Repr

/-- The payload of a completed result (the dictionary variant is left out). -/
inductive xmmsc_value_t where
  | uint32 (v : Nat)
  | int32 (v : Int)
  | string (s : CStr)
  deriving DecidableEq, Repr

/-- Completion state of a result. -/
inductive xmmsc_result_state_t where
  | pending
  | completed (v : xmmsc_value_t)
  | error (msg : CStr)
  deriving DecidableEq, Repr

/-- Modelled from the spec: the result object of result.c, which is not under
src/. "Attributes: correlation id, class tag {Default, Signal, Broadcast},
completion state {Pending, Completed, Error}, decoded payload, ... optional
owning signal/broadcast id (for re-arming)." -/
structure xmmsc_result_t where
  type : xmmsc_result_type_t
  cid : Nat
  restart_signal : Option Nat
  state : xmmsc_result_state_t
  deriving DecidableEq, Repr

/-- Modelled from the spec: `xmmsc_result_new` of result.c (not under src/)
"creates a ...-class Result keyed by that id", pending and not restartable. -/
def xmmsc_result_new (type : xmmsc_result_type_t) (cid : Nat) : xmmsc_result_t :=
  { type := type, cid := cid, restart_signal := none,
    state := xmmsc_result_state_t.pending }

/-- Modelled from the spec: `xmmsc_result_restartable` of result.c (not under
src/): "The Result is marked restartable against that signal identifier." -/
def xmmsc_result_restartable (res : xmmsc_result_t) (signalid : Nat) : xmmsc_result_t :=
  { res with restart_signal := some signalid }

/-- Modelled from the spec: `xmmsc_ipc_msg_write` of the transport adapter
(not under src/): the message is tagged with its correlation id and queued on
the transport ("Transport Adapter (queues bytes)"); without a transport there
is nothing to queue on. -/
def xmmsc_ipc_msg_write (ipc : Option xmmsc_ipc_t) (msg : xmms_ipc_msg_t) (cid : Nat) :
    Option xmmsc_ipc_t :=
  ipc.map (fun t => { t with out_msg := t.out_msg ++ [(msg, cid)] })

/-- C function `xmmsc_next_id`: `return c->cmd_id++;` on a `uint32_t`. -/
def xmmsc_next_id (c : xmmsc_connection_t) : Nat × xmmsc_connection_t :=
  (c.cmd_id, { c with cmd_id := (c.cmd_id + 1) % 2 ^ 32 })

/-- C function `xmmsc_send_msg`. -/
def xmmsc_send_msg (ids : xmmsc_idnumbers) (c : xmmsc_connection_t) (msg : xmms_ipc_msg_t) :
    xmmsc_result_t × xmmsc_connection_t :=
  let (cid, c1) := xmmsc_next_id c
  let c2 := { c1 with ipc := xmmsc_ipc_msg_write c1.ipc msg cid }
  let type :=
    if xmms_ipc_msg_get_cmd msg = ids.XMMS_IPC_CMD_SIGNAL then
      xmmsc_result_type_t.XMMSC_RESULT_CLASS_SIGNAL
    else if xmms_ipc_msg_get_cmd msg = ids.XMMS_IPC_CMD_BROADCAST then
      xmmsc_result_type_t.XMMSC_RESULT_CLASS_BROADCAST
    else
      xmmsc_result_type_t.XMMSC_RESULT_CLASS_DEFAULT
  (xmmsc_result_new type cid, c2)

/-- C function `xmmsc_send_msg_no_arg`. -/
def xmmsc_send_msg_no_arg (c : xmmsc_connection_t) (object method : Int) :
    xmmsc_result_t × xmmsc_connection_t :=
  let msg := xmms_ipc_msg_new object method
  let (cid, c1) := xmmsc_next_id c
  let c2 := { c1 with ipc := xmmsc_ipc_msg_write c1.ipc msg cid }
  (xmmsc_result_new xmmsc_result_type_t.XMMSC_RESULT_CLASS_DEFAULT cid, c2)

/-- C function `xmmsc_send_broadcast_msg`. -/
def xmmsc_send_broadcast_msg (ids : xmmsc_idnumbers) (c : xmmsc_connection_t)
    (signalid : Nat) : xmmsc_result_t × xmmsc_connection_t :=
  let msg := xmms_ipc_msg_new ids.XMMS_IPC_OBJECT_SIGNAL ids.XMMS_IPC_CMD_BROADCAST
  let msg := xmms_ipc_msg_put_uint32 msg signalid
  let (res, c1) := xmmsc_send_msg ids c msg
  (xmmsc_result_restartable res signalid, c1)

/-- C function `xmmsc_send_signal_msg`. -/
def xmmsc_send_signal_msg (ids : xmmsc_idnumbers) (c : xmmsc_connection_t)
    (signalid : Nat) : xmmsc_result_t × xmmsc_connection_t :=
  let msg := xmms_ipc_msg_new ids.XMMS_IPC_OBJECT_SIGNAL ids.XMMS_IPC_CMD_SIGNAL
  let msg := xmms_ipc_msg_put_uint32 msg signalid
  let (res, c1) := xmmsc_send_msg ids c msg
  (xmmsc_result_restartable res signalid, c1)

/-- One call to any of the four send functions, with its arguments. -/
inductive Send where
  | msg (m : xmms_ipc_msg_t)
  | no_arg (object method : Int)
  | signal (signalid : Nat)
  | broadcast (signalid : Nat)
  deriving DecidableEq, Repr

/-- The message a send call hands to `xmmsc_ipc_msg_write`. -/
def Send.message (ids : xmmsc_idnumbers) : Send → xmms_ipc_msg_t
  | Send.msg m => m
  | Send.no_arg object method => xmms_ipc_msg_new object method
  | Send.signal s =>
    xmms_ipc_msg_put_uint32
      (xmms_ipc_msg_new ids.XMMS_IPC_OBJECT_SIGNAL ids.XMMS_IPC_CMD_SIGNAL) s
  | Send.broadcast s =>
    xmms_ipc_msg_put_uint32
      (xmms_ipc_msg_new ids.XMMS_IPC_OBJECT_SIGNAL ids.XMMS_IPC_CMD_BROADCAST) s

/-- Run one send call. -/
def xmmsc_send (ids : xmmsc_idnumbers) (c : xmmsc_connection_t) :
    Send → xmmsc_result_t × xmmsc_connection_t
  | Send.msg m => xmmsc_send_msg ids c m
  | Send.no_arg object method => xmmsc_send_msg_no_arg c object method
  | Send.signal s => xmmsc_send_signal_msg ids c s
  | Send.broadcast s => xmmsc_send_broadcast_msg ids c s

/-- Run a sequence of send calls on one connection, first to last; the
results are returned in call order. -/
def xmmsc_send_all (ids : xmmsc_idnumbers) (c : xmmsc_connection_t) :
    List Send → List xmmsc_result_t × xmmsc_connection_t
  | [] => ([], c)
  | s :: rest =>
    let (r, c1) := xmmsc_send ids c s
    let (rs, c2) := xmmsc_send_all ids c1 rest
    (r :: rs, c2)

/-- The correlation ids `cmd_id0, cmd_id0 + 1, ...` (mod 2^32) of `n`
consecutive sends. -/
def cid_seq (cmd_id0 n : Nat) : List Nat :=
  (List.range n).map (fun k => (cmd_id0 + k) % 2 ^ 32)

/-! ## I/O integration -/

/-- Modelled from the spec: the macro `x_check_conn` of
xmmsclientpriv/xmmsclient.h, which is not under src/. "InvalidArgument: ...
null required parameter — detected synchronously, call fails immediately": a
`NULL` connection is rejected with the given return value, as the source's own
`x_api_error_if (!c, "with a NULL connection", ...)` does. `true` means
rejected. -/
def x_check_conn (c : Option xmmsc_connection_t) : Bool :=
  c.isNone

/-- Modelled from the spec: `xmmsc_ipc_io_out` of the transport adapter (not
under src/), on the pointer `c->ipc`: "true iff the Connection has buffered
bytes not yet flushed to the transport" (nothing is buffered where there is no
transport); the source documents the values as "1 output is requested, 0
otherwise". -/
def xmmsc_ipc_io_out (ipc : Option xmmsc_ipc_t) : Int :=
  match ipc with
  | none => 0
  | some t => if t.out_msg = [] then 0 else 1

/-- Modelled from the spec: `xmmsc_ipc_io_out_callback`, the flush routine of
the transport adapter (not under src/): it "flushes as much buffered output as
the transport accepts" (`accepts` queued messages here) and "fails (returns a
failure indicator) if the transport reports the connection broken"; the source
documents the values as "1 if everything is well, 0 if the connection is
broken". -/
def xmmsc_ipc_io_out_callback (accepts : Nat) (ipc : xmmsc_ipc_t) : Int × xmmsc_ipc_t :=
  if ipc.disconnected then
    (0, { ipc with flush_calls := ipc.flush_calls + 1 })
  else
    (1, { ipc with out_msg := ipc.out_msg.drop accepts,
                   flushed := ipc.flushed ++ ipc.out_msg.take accepts,
                   flush_calls := ipc.flush_calls + 1 })

/-- C function `xmmsc_io_want_out`. -/
def xmmsc_io_want_out (c : Option xmmsc_connection_t) : Int :=
  if x_check_conn c then -1
  else xmmsc_ipc_io_out (c.bind fun conn => conn.ipc)

/-- C function `xmmsc_io_out_handle`; `accepts` is how much the byte stream
takes when the flush routine runs. -/
def xmmsc_io_out_handle (accepts : Nat) (c : Option xmmsc_connection_t) :
    Int × Option xmmsc_connection_t :=
  if x_check_conn c then (-1, c)
  else if xmmsc_ipc_io_out (c.bind fun conn => conn.ipc) = 0 then (-1, c)
  else
    match c with
    | some conn =>
      match conn.ipc with
      | some ipc =>
        let (r, ipc1) := xmmsc_ipc_io_out_callback accepts ipc
        (r, some { conn with ipc := some ipc1 })
      | none => (-1, c)
    | none => (-1, c)

/-! ## Connecting -/

/-- What the daemon side does with a request the client waits on. -/
inductive Reply where
  /-- the daemon answers with a payload -/
  | value (v : xmmsc_value_t)
  /-- the daemon answers with an error text (for hello: rejected version) -/
  | error (msg : CStr)
  /-- the byte stream breaks; the transport adapter records the text -/
  | broken (msg : CStr)
  deriving DecidableEq, Repr

/-- What the outside world decides during `xmmsc_connect`. -/
structure Env where
  /-- `getpwuid (getuid ())->pw_name`; `none` when `pwd` or the name is `NULL` -/
  pw_name : Option CStr
  /-- `PATH_MAX` of limits.h -/
  PATH_MAX : Nat
  /-- whether the transport can be opened at an address -/
  ipc_connect_ok : CStr → Bool
  /-- the daemon: from all that reached the wire and the correlation id waited
  on, what comes back -/
  daemon : List (xmms_ipc_msg_t × Nat) → Nat → Reply
  /-- whether `strdup` returns a copy -/
  strdup_ok : Bool

/-- Modelled from the spec: `xmmsc_ipc_init` of the transport adapter (not
under src/): a transport that is not open, with nothing buffered and no
error. -/
def xmmsc_ipc_init : xmmsc_ipc_t :=
  { path := none, out_msg := [], flushed := [], error := none,
    disconnected := false, flush_calls := 0 }

/-- Modelled from the spec: `xmmsc_ipc_connect` of the transport adapter (not
under src/): "Opens the Transport Adapter" at the address; the outcome is the
world's. -/
def xmmsc_ipc_connect (env : Env) (ipc : xmmsc_ipc_t) (path : CStr) : Bool × xmmsc_ipc_t :=
  if env.ipc_connect_ok path then (true, { ipc with path := some path })
  else (false, ipc)

/-- Modelled from the spec: `xmmsc_ipc_error_get` of the transport adapter
(not under src/): "the Transport Adapter's error text". -/
def xmmsc_ipc_error_get (ipc : xmmsc_ipc_t) : Option CStr :=
  ipc.error

/-- Modelled from the spec: `xmmsc_result_wait` of result.c (not under src/):
"blocks the calling thread until state leaves Pending", pumping the
connection's I/O meanwhile: what is buffered is flushed, and the result is
completed with the daemon's payload, or fails with the daemon's error text or
with the text of a broken transport. -/
def xmmsc_result_wait (env : Env) (ipc : Option xmmsc_ipc_t) (res : xmmsc_result_t) :
    Option xmmsc_ipc_t × xmmsc_result_t :=
  match ipc with
  | none => (none, res)
  | some t =>
    match env.daemon (t.flushed ++ t.out_msg) res.cid with
    | Reply.value v =>
      (some (xmmsc_ipc_io_out_callback t.out_msg.length t).2,
       { res with state := xmmsc_result_state_t.completed v })
    | Reply.error msg =>
      (some (xmmsc_ipc_io_out_callback t.out_msg.length t).2,
       { res with state := xmmsc_result_state_t.error msg })
    | Reply.broken msg =>
      (some { t with error := some msg, disconnected := true },
       { res with state := xmmsc_result_state_t.error msg })

/-- Modelled from the spec: `xmmsc_result_get_uint` of result.c (not under
src/): "get_* accessors: valid only once state is Completed; ... calling a
type-mismatched accessor against the decoded payload fails". Returns the
success flag and the value stored through the pointer. -/
def xmmsc_result_get_uint (res : xmmsc_result_t) : Int × Nat :=
  match res.state with
  | xmmsc_result_state_t.completed (xmmsc_value_t.uint32 v) => (1, v)
  | _ => (0, 0)

/-- C function `xmmsc_send_hello`. -/
def xmmsc_send_hello (ids : xmmsc_idnumbers) (c : xmmsc_connection_t) :
    xmmsc_result_t × xmmsc_connection_t :=
  let msg := xmms_ipc_msg_new ids.XMMS_IPC_OBJECT_MAIN ids.XMMS_IPC_CMD_HELLO
  let msg := xmms_ipc_msg_put_int32 msg 1
  let msg := xmms_ipc_msg_put_string msg c.clientname
  xmmsc_send_msg ids c msg

/-- The `path` buffer `xmmsc_connect` fills before it opens the transport;
`none` when it returns early because the user cannot be resolved. -/
def xmmsc_connect_path (env : Env) (ipcpath : Option (List Char)) : Option CStr :=
  match ipcpath with
  | none =>
    match env.pw_name with
    | none => none
    | some pw_name =>
      some (snprintf_s env.PATH_MAX ("unix:///tmp/xmms-ipc-".toList ++ pw_name))
  | some p => some (snprintf_s env.PATH_MAX p)

/-- What `xmmsc_connect` returns, the connection afterwards, and the transport
object the call created (if it got that far). `undefined` tells that the call
did not return: it handed a `NULL` pointer to `strdup`, which is undefined
(a crash in practice); the other fields then hold what had been reached. -/
structure ConnectResult where
  ret : Int
  conn : Option xmmsc_connection_t
  ipc : Option xmmsc_ipc_t
  undefined : Bool := false
  deriving DecidableEq, Repr

/-- C function `xmmsc_connect`. -/
def xmmsc_connect (ids : xmmsc_idnumbers) (env : Env) (c : Option xmmsc_connection_t)
    (ipcpath : Option (List Char)) : ConnectResult :=
  match c with
  | none => { ret := 0, conn := none, ipc := none }
  | some c =>
    match xmmsc_connect_path env ipcpath with
    | none => { ret := 0, conn := some c, ipc := none }
    | some path =>
      let ipc := xmmsc_ipc_init
      let (ok, ipc) := xmmsc_ipc_connect env ipc path
      if !ok then
        { ret := 0,
          conn := some { c with
            error := strdup env.strdup_ok "xmms2d is not running.".toList },
          ipc := some ipc }
      else
        let c := { c with ipc := some ipc }
        let (result, c) := xmmsc_send_hello ids c
        let (ipc, result) := xmmsc_result_wait env c.ipc result
        let c := { c with ipc := ipc }
        let (ret, _) := xmmsc_result_get_uint result
        if ret = 0 then
          match ipc.bind xmmsc_ipc_error_get with
          | none => { ret := ret, conn := some c, ipc := ipc, undefined := true }
          | some text =>
            { ret := ret,
              conn := some { c with error := strdup env.strdup_ok text },
              ipc := ipc }
        else
          { ret := ret, conn := some c, ipc := ipc }

/-- C function `xmmsc_get_last_error`. -/
def xmmsc_get_last_error (c : Option xmmsc_connection_t) : Option CStr :=
  match c with
  | none => none
  | some c => c.error

/-! ## Sample values -/

/-- A sample assignment of the protocol identifiers, all distinct. -/
def sample_ids : xmmsc_idnumbers :=
  { XMMS_IPC_OBJECT_MAIN := 0, XMMS_IPC_OBJECT_SIGNAL := 5,
    XMMS_IPC_CMD_HELLO := 0, XMMS_IPC_CMD_SIGNAL := 20, XMMS_IPC_CMD_BROADCAST := 21 }

/-- A transport opened at an address, with nothing buffered. -/
def sample_ipc : xmmsc_ipc_t :=
  { xmmsc_ipc_init with path := some "unix:///tmp/test-ipc".toList }

/-- A connection as `xmmsc_init ("player1")` returns it. -/
def sample_conn : xmmsc_connection_t :=
  { ref := 1, ipc := none, error := none, cmd_id := 0,
    clientname := some "player1".toList }

/-- A connected connection one step before the id counter wraps. -/
def sample_connected : xmmsc_connection_t :=
  { sample_conn with ipc := some sample_ipc, cmd_id := 2 ^ 32 - 1 }

/-- A mock world: the daemon listens everywhere and acknowledges every request
with the unsigned status 1. -/
def mock_env : Env :=
  { pw_name := some "user".toList, PATH_MAX := 4096,
    ipc_connect_ok := fun _ => true,
    daemon := fun _ _ => Reply.value (xmmsc_value_t.uint32 1),
    strdup_ok := true }

/-- A world in which no daemon listens. -/
def dead_env : Env :=
  { mock_env with ipc_connect_ok := fun _ => false }

/-- The class the specification assigns to an operation id: "signal-request
opcode vs. broadcast-request opcode vs. anything else". -/
def class_of_operation (ids : xmmsc_idnumbers) (cmd : Int) : xmmsc_result_type_t :=
  if cmd = ids.XMMS_IPC_CMD_SIGNAL then xmmsc_result_type_t.XMMSC_RESULT_CLASS_SIGNAL
  else if cmd = ids.XMMS_IPC_CMD_BROADCAST then
    xmmsc_result_type_t.XMMSC_RESULT_CLASS_BROADCAST
  else xmmsc_result_type_t.XMMSC_RESULT_CLASS_DEFAULT

/-- Four sends of the four kinds, to run on `sample_connected`. -/
def sample_sends : List Send :=
  [Send.no_arg 0 1, Send.signal 7, Send.broadcast 9,
   Send.msg { object := 0, cmd := 4, args := [xmms_ipc_arg_t.uint32 2] }]

/-- A world in which the byte stream breaks while the client waits. -/
def broken_env : Env :=
  { mock_env with daemon := fun _ _ => Reply.broken "Disconnected".toList }

/-- An address string longer than the `path` buffer of `mock_env`
(`PATH_MAX` = 4096): a scheme followed by 4096 characters. -/
def long_address : List Char :=
  "unix:///".toList ++ List.replicate 4096 'x'

/-! ## AdPlug plugin (`src/plugins/adplug/adplug.cpp`) -/

/-- Two's complement reduction of a value to the range of `gint64`. -/
def wrap_int64 (x : Int) : Int :=
  (x + 2 ^ 63) % 2 ^ 64 - 2 ^ 63

/-- The seek modes of the xform interface. -/
inductive xmms_xform_seek_mode_t where
  | XMMS_XFORM_SEEK_CUR
  | XMMS_XFORM_SEEK_SET
  | XMMS_XFORM_SEEK_END
  deriving DecidableEq, Repr

/-- The private data of the plugin (`xmms_adplug_data_t`): the configured
sample rate and channel count, and, standing for the AdPlug player object, the
arguments of the calls to `player->seek` so far. -/
structure xmms_adplug_data_t where
  freq : Int
  channels : Int
  seeks : List Int
  deriving DecidableEq, Repr

/-- What the plugin sees of its xform object: the private data pointer, the
three configuration values (`none` when the lookup fails), the successive
results of `xmms_xform_read` (`none` for -1, an empty chunk for 0; an exhausted
list reads as 0), the MIME type of the input, the auxdata value "tempo" and the
URL. -/
structure xmms_xform_t where
  private_data : Option xmms_adplug_data_t
  cfg_freq : Option Int
  cfg_channels : Option Int
  cfg_enable_surround : Option Int
  reads : List (Option (List Nat))
  mimetype : CStr
  tempo : Option Int
  url : CStr
  deriving DecidableEq, Repr

/-- C function `xmms_adplug_seek`: the return value and the xform afterwards.
The division by `cfg.freq` is the C one (towards zero) on `gint64`. -/
def xmms_adplug_seek (xform : Option xmms_xform_t) (samples : Int)
    (whence : xmms_xform_seek_mode_t) : Int × Option xmms_xform_t :=
  match xform with
  | none => (0, none)
  | some x =>
    if whence ≠ xmms_xform_seek_mode_t.XMMS_XFORM_SEEK_SET then (-1, some x)
    else
      match x.private_data with
      | none => (-1, some x)
      | some data =>
        let ms := wrap_int64 (Int.tdiv (wrap_int64 (samples * 1000)) data.freq)
        let data1 := { data with seeks := data.seeks ++ [ms] }
        (wrap_int64 (Int.tdiv (wrap_int64 (ms * data.freq)) 1000),
         some { x with private_data := some data1 })

/-- The read loop of `xmms_adplug_init`: chunks are appended to the buffer
until a read returns 0; `none` when a read returns -1. -/
def xmms_adplug_read_all : List (Option (List Nat)) → Option (List Nat)
  | [] => some []
  | none :: _ => none
  | some chunk :: rest =>
    if chunk = [] then some []
    else (xmms_adplug_read_all rest).map (fun tail => chunk ++ tail)

/-- The 22 bytes of the literal "MThd\x00\x00\x00\x06\x00\x00\x00\x01__MTrk____"
that `xmms_adplug_init` prepends. -/
def midi_header_template : List Nat :=
  [77, 84, 104, 100, 0, 0, 0, 6, 0, 0, 0, 1, 95, 95, 77, 84, 114, 107, 95, 95, 95, 95]

/-- The raw-MIDI branch of `xmms_adplug_init`: `mtrk_len` is taken from the
buffer (as `guint32`), the template is prepended, and six bytes are filled in;
`(v >> k) & 0xFF` is `(v / 2^k) % 256`. -/
def xmms_adplug_midi_header (buffer : List Nat) (ticks_per_quarter_note : Int) :
    List Nat :=
  let mtrk_len : Nat := buffer.length % 2 ^ 32
  let b := midi_header_template ++ buffer
  let b := b.set 12 ((ticks_per_quarter_note / 2 ^ 8) % 256).toNat
  let b := b.set 13 (ticks_per_quarter_note % 256).toNat
  let b := b.set 18 ((mtrk_len / 2 ^ 24) % 256)
  let b := b.set 19 ((mtrk_len / 2 ^ 16) % 256)
  let b := b.set 20 ((mtrk_len / 2 ^ 8) % 256)
  b.set 21 (mtrk_len % 256)

/-- What `xmms_adplug_init` returns, the xform afterwards, and what it handed
to `CAdPlug::factory` (URL, buffer contents, and the size given to
`CProvider_Mem`), if it got that far. -/
structure AdplugInitResult where
  ret : Bool
  xform : Option xmms_xform_t
  factory_url : Option CStr
  buffer : Option (List Nat)
  file_size : Option Int
  deriving DecidableEq, Repr

/-- C function `xmms_adplug_init`, up to the creation of the player;
`factory url data` tells whether `CAdPlug::factory` recognises the data. The
OPL emulator objects and the metadata calls are left out. -/
def xmms_adplug_init (factory : CStr → List Nat → Bool) (xform : Option xmms_xform_t) :
    AdplugInitResult :=
  match xform with
  | none => { ret := false, xform := none, factory_url := none, buffer := none,
              file_size := none }
  | some x =>
    let data : xmms_adplug_data_t :=
      { freq := x.cfg_freq.getD 0, channels := x.cfg_channels.getD 0, seeks := [] }
    let x1 := { x with private_data := some data }
    let fail : AdplugInitResult :=
      { ret := false, xform := some x1, factory_url := none, buffer := none,
        file_size := none }
    match xmms_adplug_read_all x.reads with
    | none => fail
    | some buffer =>
      let rawmidi : Bool := decide (x.mimetype = "audio/rawmidi".toList)
      let prepared : Option (List Nat × CStr) :=
        if rawmidi then
          match x.tempo with
          | none => none
          | some t => some (xmms_adplug_midi_header buffer t, "test.mid".toList)
        else some (buffer, x.url)
      match prepared with
      | none => fail
      | some (buffer, url) =>
        { ret := factory url buffer, xform := some x1, factory_url := some url,
          buffer := some buffer, file_size := some (wrap_int (buffer.length : Int)) }

/-- An xform with the default configuration and a player at 44100 Hz. -/
def sample_xform_44100 : xmms_xform_t :=
  { private_data := some { freq := 44100, channels := 2, seeks := [] },
    cfg_freq := some 44100, cfg_channels := some 2, cfg_enable_surround := some 1,
    reads := [], mimetype := "audio/x-adplug-cmf".toList, tempo := none,
    url := "file:///song.cmf".toList }

/-- An xform at the default 48000 Hz. -/
def sample_xform_48000 : xmms_xform_t :=
  { sample_xform_44100 with
    private_data := some { freq := 48000, channels := 2, seeks := [] },
    cfg_freq := some 48000 }

/-- A raw-MIDI xform delivering five bytes in two chunks, with tempo 480. -/
def sample_xform_rawmidi : xmms_xform_t :=
  { private_data := none,
    cfg_freq := some 48000, cfg_channels := some 2, cfg_enable_surround := some 1,
    reads := [some [0, 144, 60], some [100, 0], some []],
    mimetype := "audio/rawmidi".toList, tempo := some 480,
    url := "file:///song.mid".toList }

/-! ## Formatting a mediainfo entry (`xmmsc_entry_format`) -/

/-- The character `{`. -/
def lbrace : Char := Char.ofNat 123

/-- The character `}`. -/
def rbrace : Char := Char.ofNat 125

/-- Modelled from the spec: the dictionary payload of a result, "a
string-keyed dictionary of the same primitive types (used for entity
metadata)"; result.c is not under src/. -/
abbrev xmmsc_dict_t := List (CStr × xmmsc_value_t)

/-- Modelled from the spec: the entry a key has in the dictionary, as the
accessors `xmmsc_result_get_dict_entry_type` / `_str` / `_uint32` / `_int32`
of result.c (not under src/) see it; `none` when the key is absent. -/
def xmmsc_result_dict_lookup (res : xmmsc_dict_t) (key : CStr) : Option xmmsc_value_t :=
  res.lookup key

/-- Modelled from the spec: `xmmsc_result_get_dict_entry_int32` of result.c
(not under src/), as `xmmsc_entry_format` uses it: the value of an int32 entry;
`missing` is what the caller's variable holds when the entry is absent or of
another type ("calling a type-mismatched accessor ... fails"). -/
def xmmsc_result_get_dict_entry_int32 (missing : Int) (res : xmmsc_dict_t) (key : CStr) :
    Int :=
  match xmmsc_result_dict_lookup res key with
  | some (xmmsc_value_t.int32 v) => wrap_int v
  | _ => missing

/-- The libc `strstr (pos, "${")`: offset of the first "${" in `pos`. -/
def strstr_key : List Char → Option Nat
  | [] => none
  | a :: rest =>
    match rest with
    | [] => none
    | b :: _ =>
      if a = '$' ∧ b = lbrace then some 0
      else (strstr_key rest).map (fun off => off + 1)

/-- The libc `strcspn (s, "}")`: number of characters before the first `}`. -/
def strcspn_rbrace (s : List Char) : Nat :=
  (s.takeWhile (fun ch => ch ≠ rbrace)).length

/-- The libc `strchr (s, '}')`: offset of the first `}`, if there is one. -/
def strchr_rbrace (s : List Char) : Option Nat :=
  if strcspn_rbrace s < s.length then some (strcspn_rbrace s) else none

/-- The libc `strncat (dest, src, n)`: at most `n` characters of `src` are
appended to `dest`. -/
def strncat (dest src : CStr) (n : Nat) : CStr :=
  dest ++ src.take n

/-- The libc conversion "%u". -/
def printf_u (v : Nat) : List Char :=
  Nat.toDigits 10 v

/-- The libc conversion "%d". -/
def printf_d (v : Int) : List Char :=
  if v < 0 then '-' :: Nat.toDigits 10 v.natAbs else Nat.toDigits 10 v.toNat

/-- The libc conversion "%02d": "%d" padded with a zero to two characters. -/
def printf_02d (v : Int) : List Char :=
  if (printf_d v).length < 2 then '0' :: printf_d v else printf_d v

/-- The libc `snprintf (buf, size, ...)` on the converted text: at most
`size - 1` characters are stored. -/
def snprintf_trunc (size : Nat) (text : List Char) : CStr :=
  text.take (size - 1)

/-- The body of the loop of `xmmsc_entry_format` between the extraction of the
key and `free (key)`: what is appended to `target` for the key. -/
def xmmsc_entry_format_key (missing : Int) (len : Nat) (res : xmmsc_dict_t) (key : CStr)
    (target : CStr) : CStr :=
  if key = "seconds".toList then
    let duration := xmmsc_result_get_dict_entry_int32 missing res "duration".toList
    if duration = 0 then
      strncat target "00".toList (len - target.length - 1)
    else
      strncat target
        (snprintf_trunc 10 (printf_02d (Int.tmod (Int.tdiv duration 1000) 60)))
        (len - target.length - 1)
  else if key = "minutes".toList then
    let duration := xmmsc_result_get_dict_entry_int32 missing res "duration".toList
    if duration = 0 then
      strncat target "00".toList (len - target.length - 1)
    else
      strncat target (snprintf_trunc 10 (printf_02d (Int.tdiv duration 60000)))
        (len - target.length - 1)
  else
    match xmmsc_result_dict_lookup res key with
    | some (xmmsc_value_t.string s) => strncat target s (len - target.length - 1)
    | some (xmmsc_value_t.uint32 ui) =>
      strncat target (snprintf_trunc 12 (printf_u (ui % 2 ^ 32))) (len - target.length - 1)
    | some (xmmsc_value_t.int32 i) =>
      strncat target (snprintf_trunc 12 (printf_d (wrap_int i))) (len - target.length - 1)
    | none => target

/-- The `while (strlen (target) + 1 < len)` loop of `xmmsc_entry_format`, run
for at most `fuel` iterations; `i` counts the `malloc` calls and `malloc_ok i`
tells whether the i-th succeeds. `none` means the fuel ran out. -/
def xmmsc_entry_format_loop (missing : Int) (malloc_ok : Nat → Bool) (len : Nat)
    (res : xmmsc_dict_t) : Nat → Nat → CStr → CStr → Option CStr
  | 0, _, _, _ => none
  | fuel + 1, i, target, pos =>
    if target.length + 1 < len then
      match strstr_key pos with
      | none => some (strncat target pos (len - target.length - 1))
      | some off =>
        let target := strncat target pos (min off (len - target.length - 1))
        let next_key := pos.drop off
        let keylen := strcspn_rbrace (next_key.drop 2)
        if !malloc_ok i then some target
        else
          let key := (next_key.drop 2).take keylen
          let target := xmmsc_entry_format_key missing len res key target
          match strchr_rbrace next_key with
          | none => some target
          | some e =>
            xmmsc_entry_format_loop missing malloc_ok len res fuel (i + 1) target
              (next_key.drop (e + 1))
    else some target

/-- What `xmmsc_entry_format` returns and the string it leaves in `target`
(`none` for a NULL buffer). -/
structure FormatResult where
  ret : Int
  target : Option CStr
  deriving DecidableEq, Repr

/-- C function `xmmsc_entry_format`; `target` is the string in the buffer
before the call (`none` for NULL), `len` the buffer length (at least 1, and
the strings shorter than 2^31, for the `int` variables to hold them). The
result is `none` only if the loop does not end within the fuel given, which is
the length of the format plus one. -/
def xmmsc_entry_format (missing : Int) (malloc_ok : Nat → Bool) (target : Option CStr)
    (len : Nat) (fmt : Option (List Char)) (res : xmmsc_dict_t) : Option FormatResult :=
  match target with
  | none => some { ret := 0, target := none }
  | some old =>
    match fmt with
    | none => some { ret := 0, target := some old }
    | some fmt =>
      (xmmsc_entry_format_loop missing malloc_ok len res ((cstr fmt).length + 1) 0 []
        (cstr fmt)).map (fun t => { ret := (t.length : Int), target := some t })

/-- The format "${minutes}:${seconds}". -/
def fmt_minutes_seconds : List Char :=
  "$\x7bminutes\x7d:$\x7bseconds\x7d".toList

/-- A mediainfo dictionary with a duration of 125 seconds. -/
def sample_dict : xmmsc_dict_t :=
  [("artist".toList, xmmsc_value_t.string "Abba".toList),
   ("duration".toList, xmmsc_value_t.int32 125000),
   ("id".toList, xmmsc_value_t.uint32 7)]

/-! ## Lemmas on the client-name scan -/

theorem invalid_char_eq_false_iff (j : Char) :
    invalid_char j = false ↔ (isalnum j = true ∨ j = '_' ∨ j = '-') := by
  unfold invalid_char
  cases h : isalnum j
  · simp [bne_iff_ne]
    tauto
  · simp

theorem xmmsc_init_scan_iff (name : List Char) (hnul : ∀ ch ∈ name, ch.toNat ≠ 0) :
    xmmsc_init_scan name = true ↔ ∀ ch ∈ name, invalid_char ch = false := by
  induction name with
  | nil => simp [xmmsc_init_scan]
  | cons j rest ih =>
    have hj : j.toNat ≠ 0 := hnul j (List.mem_cons_self j rest)
    have hrest : ∀ ch ∈ rest, ch.toNat ≠ 0 := fun ch hch =>
      hnul ch (List.mem_cons_of_mem j hch)
    unfold xmmsc_init_scan
    rw [if_neg hj]
    cases hinv : invalid_char j with
    | true => simp [hinv]
    | false => simp [hinv, ih hrest]

theorem xmmsc_init_ret_isSome (mem : Mem) (name : List Char) :
    (xmmsc_init mem (some name)).ret.isSome =
      (mem.x_new0_ok && xmmsc_init_scan name && mem.strdup_ok) := by
  cases h1 : mem.x_new0_ok <;> cases h2 : xmmsc_init_scan name <;>
    cases h3 : mem.strdup_ok <;> simp [xmmsc_init, strdup, xmmsc_ref, h1, h2, h3]

theorem xmmsc_init_live_of_none (mem : Mem) (clientname : Option (List Char))
    (h : (xmmsc_init mem clientname).ret = none) :
    live_connections (xmmsc_init mem clientname).trace = 0 := by
  cases clientname with
  | none => simp [xmmsc_init, live_connections]
  | some name =>
    revert h
    cases h1 : mem.x_new0_ok <;> cases h2 : xmmsc_init_scan name <;>
      cases h3 : mem.strdup_ok <;>
      simp [xmmsc_init, strdup, xmmsc_ref, h1, h2, h3, live_connections]

/-! ## Claims -/

/-- C1: for a non-empty client name of ASCII characters, `xmmsc_init` (its two
allocations succeeding) returns a connection exactly when every character is
alphanumeric, an underscore or a hyphen; a name with a character outside that
set, and a NULL name, give NULL with no connection object left allocated. -/
theorem xmmsc_init_valid_name_iff (mem : Mem) (name : List Char)
    (hne : name ≠ [])
    (hascii : ∀ ch ∈ name, 0 < ch.toNat ∧ ch.toNat < 128) :
    (mem.x_new0_ok = true → mem.strdup_ok = true →
      ((xmmsc_init mem (some name)).ret.isSome = true ↔
        ∀ ch ∈ name, isalnum ch = true ∨ ch = '_' ∨ ch = '-')) ∧
    ((∃ ch ∈ name, ¬ (isalnum ch = true ∨ ch = '_' ∨ ch = '-')) →
      (xmmsc_init mem (some name)).ret = none ∧
      live_connections (xmmsc_init mem (some name)).trace = 0) ∧
    ((xmmsc_init mem none).ret = none ∧ (xmmsc_init mem none).trace = []) := by
  have _ := hne
  have hnul : ∀ ch ∈ name, ch.toNat ≠ 0 := fun ch hch =>
    Nat.pos_iff_ne_zero.mp (hascii ch hch).1
  have hscan := xmmsc_init_scan_iff name hnul
  refine ⟨?_, ?_, ?_⟩
  · intro h1 h2
    rw [xmmsc_init_ret_isSome, h1, h2]
    simp only [Bool.true_and, Bool.and_true]
    rw [hscan]
    exact forall₂_congr (fun ch _ => invalid_char_eq_false_iff ch)
  · rintro ⟨ch, hch, hbad⟩
    have hnone : (xmmsc_init mem (some name)).ret = none := by
      have hs : xmmsc_init_scan name = false := by
        cases hsc : xmmsc_init_scan name with
        | false => rfl
        | true =>
          exact absurd ((invalid_char_eq_false_iff ch).mp ((hscan.mp hsc) ch hch)) hbad
      have := xmmsc_init_ret_isSome mem name
      rw [hs] at this
      simpa using this
    exact ⟨hnone, xmmsc_init_live_of_none mem (some name) hnone⟩
  · simp [xmmsc_init]

/-- C1 at concrete names: "player1" is accepted, "bad name" (with a space) is
refused and nothing stays allocated. -/
theorem xmmsc_init_valid_name_iff_witness :
    ("player1".toList ≠ [] ∧
      (∀ ch ∈ "player1".toList, 0 < ch.toNat ∧ ch.toNat < 128) ∧
      (xmmsc_init ⟨true, true⟩ (some "player1".toList)).ret.isSome = true) ∧
    ("bad name".toList ≠ [] ∧
      (∀ ch ∈ "bad name".toList, 0 < ch.toNat ∧ ch.toNat < 128) ∧
      (xmmsc_init ⟨true, true⟩ (some "bad name".toList)).ret = none ∧
      live_connections (xmmsc_init ⟨true, true⟩ (some "bad name".toList)).trace = 0) :=
  ⟨⟨by decide, by decide,
      ((xmmsc_init_valid_name_iff ⟨true, true⟩ "player1".toList (by decide)
        (by decide)).1 rfl rfl).mpr (by decide)⟩,
   ⟨by decide, by decide,
      (xmmsc_init_valid_name_iff ⟨true, true⟩ "bad name".toList (by decide)
        (by decide)).2.1 ⟨' ', by decide, by decide⟩⟩⟩

/-- C2 as stated fails: with the empty string `xmmsc_init` does not return
NULL; it returns a connection with reference count 1 and an empty name. -/
theorem xmmsc_init_empty_name_counterexample :
    (xmmsc_init ⟨true, true⟩ (some "".toList)).ret =
      some { ref := 1, ipc := none, error := none, cmd_id := 0, clientname := some [] } ∧
    ¬ ((xmmsc_init ⟨true, true⟩ (some "".toList)).ret = none) := by
  decide

/-- C2 amended: with the empty string the validation loop of `xmmsc_init`
rejects nothing; the call returns a connection (reference count 1, empty
client name) whenever its two allocations succeed, and NULL only when one of
them fails. -/
theorem xmmsc_init_empty_name (mem : Mem) :
    (xmmsc_init mem (some [])).ret =
      if mem.x_new0_ok && mem.strdup_ok then
        some { ref := 1, ipc := none, error := none, cmd_id := 0, clientname := some [] }
      else none := by
  obtain ⟨a, b⟩ := mem
  cases a <;> cases b <;> decide

/-! ## Lemmas on the dispatcher -/

theorem xmmsc_send_step (ids : xmmsc_idnumbers) (c : xmmsc_connection_t) (s : Send) :
    (xmmsc_send ids c s).1.cid = c.cmd_id ∧
    (xmmsc_send ids c s).2 =
      { c with cmd_id := (c.cmd_id + 1) % 2 ^ 32,
               ipc := xmmsc_ipc_msg_write c.ipc (Send.message ids s) c.cmd_id } := by
  cases s <;>
    simp [xmmsc_send, xmmsc_send_msg, xmmsc_send_msg_no_arg, xmmsc_send_signal_msg,
      xmmsc_send_broadcast_msg, xmmsc_next_id, xmmsc_result_new, xmmsc_result_restartable,
      Send.message]

theorem cid_seq_succ (cmd_id0 n : Nat) :
    cid_seq cmd_id0 (n + 1) = cmd_id0 % 2 ^ 32 :: cid_seq ((cmd_id0 + 1) % 2 ^ 32) n := by
  unfold cid_seq
  rw [List.range_succ_eq_map, List.map_cons, List.map_map]
  refine congrArg₂ _ rfl (List.map_congr_left ?_)
  intro k _
  simp only [Function.comp_apply, Nat.add_zero]
  omega

theorem cid_seq_nodup (cmd_id0 n : Nat) (hn : n ≤ 2 ^ 32) : (cid_seq cmd_id0 n).Nodup := by
  unfold cid_seq
  refine List.Nodup.map_on ?_ (List.nodup_range n)
  intro a ha b hb hab
  rw [List.mem_range] at ha hb
  omega

theorem cid_seq_getElem? (cmd_id0 n k : Nat) (hk : k < n) :
    (cid_seq cmd_id0 n)[k]? = some ((cmd_id0 + k) % 2 ^ 32) := by
  simp [cid_seq, List.getElem?_map, List.getElem?_range hk]

theorem xmmsc_send_all_spec (ids : xmmsc_idnumbers) (sends : List Send) :
    ∀ (c : xmmsc_connection_t) (t : xmmsc_ipc_t), c.ipc = some t → c.cmd_id < 2 ^ 32 →
      (xmmsc_send_all ids c sends).1.map (fun r => r.cid) = cid_seq c.cmd_id sends.length ∧
      (xmmsc_send_all ids c sends).2 =
        { c with
          cmd_id := (c.cmd_id + sends.length) % 2 ^ 32,
          ipc := some { t with
            out_msg := t.out_msg ++
              List.zip (sends.map (Send.message ids)) (cid_seq c.cmd_id sends.length) } } := by
  induction sends with
  | nil =>
    intro c t hipc hid
    obtain ⟨r, i, e, n, cl⟩ := c
    simp only at hipc hid
    subst hipc
    simp [xmmsc_send_all, cid_seq]
    omega
  | cons s rest ih =>
    intro c t hipc hid
    obtain ⟨hcid, hstep⟩ := xmmsc_send_step ids c s
    have hlt : (c.cmd_id + 1) % 2 ^ 32 < 2 ^ 32 := Nat.mod_lt _ (by norm_num)
    have hipc1 : (xmmsc_send ids c s).2.ipc =
        some { t with out_msg := t.out_msg ++ [(Send.message ids s, c.cmd_id)] } := by
      rw [hstep, hipc]; rfl
    have hid1 : (xmmsc_send ids c s).2.cmd_id = (c.cmd_id + 1) % 2 ^ 32 := by
      rw [hstep]
    obtain ⟨ih1, ih2⟩ := ih (xmmsc_send ids c s).2 _ hipc1 (by rw [hid1]; exact hlt)
    rw [hid1] at ih1 ih2
    have hmod : c.cmd_id % 2 ^ 32 = c.cmd_id := Nat.mod_eq_of_lt hid
    refine ⟨?_, ?_⟩
    · simp only [xmmsc_send_all, List.map_cons, List.length_cons]
      rw [ih1, cid_seq_succ, hcid, hmod]
    · simp only [xmmsc_send_all, List.map_cons, List.length_cons]
      rw [ih2, cid_seq_succ, hmod, hstep]
      simp only [List.zip_cons_cons, List.append_assoc, List.singleton_append]
      congr 1
      omega

/-- C3: on a connection with a transport, a sequence of N <= 2^32 sends of any
kind consumes one id per send; the k-th send is queued on the transport with
id (cmd_id0 + k) mod 2^32 and its result carries that id; the N ids are
pairwise distinct. -/
theorem xmmsc_send_all_ids_distinct (ids : xmmsc_idnumbers) (c : xmmsc_connection_t)
    (t : xmmsc_ipc_t) (sends : List Send)
    (hipc : c.ipc = some t) (hid : c.cmd_id < 2 ^ 32) (hN : sends.length ≤ 2 ^ 32) :
    (∀ (c1 : xmmsc_connection_t) (s : Send),
      (xmmsc_send ids c1 s).1.cid = c1.cmd_id ∧
      (xmmsc_send ids c1 s).2.cmd_id = (c1.cmd_id + 1) % 2 ^ 32) ∧
    (xmmsc_send_all ids c sends).1.length = sends.length ∧
    (∀ k, k < sends.length →
      ((xmmsc_send_all ids c sends).1.map (fun r => r.cid))[k]? =
        some ((c.cmd_id + k) % 2 ^ 32)) ∧
    (∃ t1, (xmmsc_send_all ids c sends).2.ipc = some t1 ∧
      t1.out_msg.length = t.out_msg.length + sends.length ∧
      t1.out_msg.take t.out_msg.length = t.out_msg ∧
      (t1.out_msg.drop t.out_msg.length).map Prod.fst = sends.map (Send.message ids) ∧
      ∀ k, k < sends.length →
        ((t1.out_msg.drop t.out_msg.length).map Prod.snd)[k]? =
          some ((c.cmd_id + k) % 2 ^ 32)) ∧
    (xmmsc_send_all ids c sends).2.cmd_id = (c.cmd_id + sends.length) % 2 ^ 32 ∧
    ((xmmsc_send_all ids c sends).1.map (fun r => r.cid)).Nodup := by
  obtain ⟨h1, h2⟩ := xmmsc_send_all_spec ids sends c t hipc hid
  have hlen : (cid_seq c.cmd_id sends.length).length = sends.length := by
    simp [cid_seq]
  refine ⟨?_, ?_, ?_, ?_, ?_, ?_⟩
  · intro c1 s
    obtain ⟨ha, hb⟩ := xmmsc_send_step ids c1 s
    exact ⟨ha, by rw [hb]⟩
  · have := congrArg List.length h1
    simpa [hlen] using this
  · intro k hk
    rw [h1]
    exact cid_seq_getElem? _ _ _ hk
  · refine ⟨_, by rw [h2], ?_, ?_, ?_, ?_⟩
    · simp [hlen]
    · simp
    · simp only [List.drop_left]
      rw [List.map_fst_zip]
      simp [hlen]
    · intro k hk
      simp only [List.drop_left]
      rw [List.map_snd_zip]
      · exact cid_seq_getElem? _ _ _ hk
      · simp [hlen]
  · rw [h2]
  · rw [h1]
    exact cid_seq_nodup _ _ hN

/-- C3 on a connection whose counter is at 2^32 - 1: four sends get the ids
4294967295, 0, 1, 2. -/
theorem xmmsc_send_all_ids_distinct_witness :
    sample_connected.ipc = some sample_ipc ∧
    sample_connected.cmd_id < 2 ^ 32 ∧
    sample_sends.length ≤ 2 ^ 32 ∧
    (xmmsc_send_all sample_ids sample_connected sample_sends).1.map (fun r => r.cid) =
      [4294967295, 0, 1, 2] ∧
    ((xmmsc_send_all sample_ids sample_connected sample_sends).1.map
      (fun r => r.cid)).Nodup :=
  ⟨rfl, by decide, by decide, by decide,
    (xmmsc_send_all_ids_distinct sample_ids sample_connected sample_ipc sample_sends rfl
      (by decide) (by decide)).2.2.2.2.2⟩

/-- C4 as stated fails on the no-argument path: a message with the
signal-request operation sent through `xmmsc_send_msg_no_arg` gets a
Default-class result, while the same operation through `xmmsc_send_msg` gets a
Signal-class one. -/
theorem xmmsc_send_msg_no_arg_class_counterexample :
    (xmmsc_send_msg_no_arg sample_connected sample_ids.XMMS_IPC_OBJECT_SIGNAL
      sample_ids.XMMS_IPC_CMD_SIGNAL).1.type =
        xmmsc_result_type_t.XMMSC_RESULT_CLASS_DEFAULT ∧
    (xmmsc_send_msg sample_ids sample_connected
      (xmms_ipc_msg_new sample_ids.XMMS_IPC_OBJECT_SIGNAL
        sample_ids.XMMS_IPC_CMD_SIGNAL)).1.type =
        xmmsc_result_type_t.XMMSC_RESULT_CLASS_SIGNAL ∧
    ¬ (∀ (c : xmmsc_connection_t) (object method : Int),
        (xmmsc_send_msg_no_arg c object method).1.type =
          class_of_operation sample_ids method) := by
  refine ⟨by decide, by decide, ?_⟩
  intro h
  exact absurd (h sample_connected sample_ids.XMMS_IPC_OBJECT_SIGNAL
    sample_ids.XMMS_IPC_CMD_SIGNAL) (by decide)

/-- C4 amended: through `xmmsc_send_msg` the class of the result is a function
of the operation id of the message alone (Signal for the signal-request
opcode, Broadcast for the broadcast-request opcode, Default for any other),
whatever the target object and the arguments; through `xmmsc_send_msg_no_arg`
the class is Default for every object and every operation. -/
theorem xmmsc_send_class (ids : xmmsc_idnumbers)
    (hdist : ids.XMMS_IPC_CMD_SIGNAL ≠ ids.XMMS_IPC_CMD_BROADCAST)
    (c : xmmsc_connection_t) (msg : xmms_ipc_msg_t) (object method : Int) :
    (xmmsc_send_msg ids c msg).1.type = class_of_operation ids (xmms_ipc_msg_get_cmd msg) ∧
    class_of_operation ids ids.XMMS_IPC_CMD_SIGNAL =
      xmmsc_result_type_t.XMMSC_RESULT_CLASS_SIGNAL ∧
    class_of_operation ids ids.XMMS_IPC_CMD_BROADCAST =
      xmmsc_result_type_t.XMMSC_RESULT_CLASS_BROADCAST ∧
    (∀ cmd, cmd ≠ ids.XMMS_IPC_CMD_SIGNAL → cmd ≠ ids.XMMS_IPC_CMD_BROADCAST →
      class_of_operation ids cmd = xmmsc_result_type_t.XMMSC_RESULT_CLASS_DEFAULT) ∧
    (xmmsc_send_msg_no_arg c object method).1.type =
      xmmsc_result_type_t.XMMSC_RESULT_CLASS_DEFAULT := by
  refine ⟨?_, ?_, ?_, ?_, ?_⟩
  · simp [xmmsc_send_msg, xmmsc_next_id, xmmsc_result_new, class_of_operation]
  · simp [class_of_operation]
  · simp [class_of_operation, Ne.symm hdist]
  · intro cmd h1 h2
    simp [class_of_operation, h1, h2]
  · simp [xmmsc_send_msg_no_arg, xmmsc_next_id, xmmsc_result_new]

/-- C4 amended, at the sample identifiers: a broadcast-request message with an
argument gets a Broadcast-class result from `xmmsc_send_msg`, and the same
object and operation get a Default-class result from `xmmsc_send_msg_no_arg`. -/
theorem xmmsc_send_class_witness :
    sample_ids.XMMS_IPC_CMD_SIGNAL ≠ sample_ids.XMMS_IPC_CMD_BROADCAST ∧
    (xmmsc_send_msg sample_ids sample_connected
      { object := 5, cmd := 21, args := [xmms_ipc_arg_t.uint32 3] }).1.type =
        class_of_operation sample_ids 21 ∧
    class_of_operation sample_ids 21 = xmmsc_result_type_t.XMMSC_RESULT_CLASS_BROADCAST ∧
    (xmmsc_send_msg_no_arg sample_connected 5 21).1.type =
      xmmsc_result_type_t.XMMSC_RESULT_CLASS_DEFAULT :=
  ⟨by decide,
    (xmmsc_send_class sample_ids (by decide) sample_connected
      { object := 5, cmd := 21, args := [xmms_ipc_arg_t.uint32 3] } 5 21).1,
    (xmmsc_send_class sample_ids (by decide) sample_connected
      { object := 5, cmd := 21, args := [xmms_ipc_arg_t.uint32 3] } 5 21).2.2.1,
    (xmmsc_send_class sample_ids (by decide) sample_connected
      { object := 5, cmd := 21, args := [xmms_ipc_arg_t.uint32 3] } 5 21).2.2.2.2⟩

/-- C5: `xmmsc_unref` on a count below 1 is rejected and leaves the connection
as it was, with no teardown; otherwise the count drops by exactly one and the
teardown of `xmmsc_deinit` (destroy the transport, free the error and the
client name, free the connection) runs exactly when the new count is 0.
`xmmsc_ref` adds exactly one to the count and changes nothing else. -/
theorem xmmsc_unref_ref_count (c : xmmsc_connection_t)
    (hlo : -2 ^ 31 ≤ c.ref) (hhi : c.ref ≤ 2 ^ 31 - 1) :
    (c.ref < 1 → xmmsc_unref (some c) = { conn := some c, trace := [] }) ∧
    (1 ≤ c.ref → c.ref - 1 ≠ 0 →
      xmmsc_unref (some c) = { conn := some { c with ref := c.ref - 1 }, trace := [] }) ∧
    (1 ≤ c.ref → c.ref - 1 = 0 →
      xmmsc_unref (some c) =
        { conn := none,
          trace := [Effect.ipc_destroy c.ipc, Effect.free_string c.error,
                    Effect.free_string c.clientname, Effect.free_connection] }) ∧
    ((xmmsc_unref (some c)).trace ≠ [] ↔ (1 ≤ c.ref ∧ c.ref - 1 = 0)) ∧
    (c.ref < 2 ^ 31 - 1 → xmmsc_ref (some c) = some { c with ref := c.ref + 1 }) := by
  have hw : 1 ≤ c.ref → wrap_int (c.ref - 1) = c.ref - 1 := by
    intro h
    unfold wrap_int
    omega
  have hw0 : wrap_int 0 = 0 := by decide
  refine ⟨?_, ?_, ?_, ?_, ?_⟩
  · intro h
    simp [xmmsc_unref, h]
  · intro h1 h2
    have h3 : ¬ c.ref < 1 := by omega
    simp [xmmsc_unref, h3, hw h1, h2]
  · intro h1 h2
    have h3 : ¬ c.ref < 1 := by omega
    simp [xmmsc_unref, h3, hw h1, h2, hw0, xmmsc_deinit]
  · by_cases h : c.ref < 1
    · simp [xmmsc_unref, h]
    · have h1 : 1 ≤ c.ref := by omega
      by_cases h2 : c.ref - 1 = 0
      · simp [xmmsc_unref, h, hw h1, h2, hw0, xmmsc_deinit, h1]
      · simp [xmmsc_unref, h, hw h1, h2]
  · intro h
    have : wrap_int (c.ref + 1) = c.ref + 1 := by
      unfold wrap_int
      omega
    simp [xmmsc_ref, this]

/-- C5 on the connection `xmmsc_init ("player1")` returns: with count 1 the
unref releases it and runs the teardown; after a ref (count 2) an unref gives
back count 1 without teardown. -/
theorem xmmsc_unref_ref_count_witness :
    (-2 ^ 31 ≤ sample_conn.ref ∧ sample_conn.ref ≤ 2 ^ 31 - 1) ∧
    xmmsc_unref (some sample_conn) =
      { conn := none,
        trace := [Effect.ipc_destroy none, Effect.free_string none,
                  Effect.free_string (some "player1".toList), Effect.free_connection] } ∧
    xmmsc_ref (some sample_conn) = some { sample_conn with ref := 2 } ∧
    xmmsc_unref (some { sample_conn with ref := 2 }) =
      { conn := some sample_conn, trace := [] } :=
  ⟨by decide,
    (xmmsc_unref_ref_count sample_conn (by decide) (by decide)).2.2.1 (by decide) (by decide),
    (xmmsc_unref_ref_count sample_conn (by decide) (by decide)).2.2.2.2 (by decide),
    (xmmsc_unref_ref_count { sample_conn with ref := 2 } (by decide) (by decide)).2.1
      (by decide) (by decide)⟩

/-- C6: on a connection with a transport, when `xmmsc_io_want_out` is 0 (no
pending output) `xmmsc_io_out_handle` returns the failure indicator -1 and the
flush routine does not run (the connection and its transport, flush counter
included, are unchanged); when output is pending it returns exactly the value
of the flush routine, which has run once: 1 if all is well, 0 if the
connection is broken. -/
theorem xmmsc_io_out_handle_flush (accepts : Nat) (c : xmmsc_connection_t)
    (t : xmmsc_ipc_t) (hipc : c.ipc = some t) :
    (xmmsc_io_want_out (some c) = 0 →
      xmmsc_io_out_handle accepts (some c) = (-1, some c)) ∧
    (xmmsc_io_want_out (some c) = 1 →
      xmmsc_io_out_handle accepts (some c) =
        ((xmmsc_ipc_io_out_callback accepts t).1,
         some { c with ipc := some (xmmsc_ipc_io_out_callback accepts t).2 }) ∧
      (xmmsc_ipc_io_out_callback accepts t).2.flush_calls = t.flush_calls + 1 ∧
      (t.disconnected = false → (xmmsc_io_out_handle accepts (some c)).1 = 1) ∧
      (t.disconnected = true → (xmmsc_io_out_handle accepts (some c)).1 = 0)) ∧
    (xmmsc_io_want_out (some c) = 0 ∨ xmmsc_io_want_out (some c) = 1) ∧
    (xmmsc_io_want_out (some c) = 1 ↔ t.out_msg ≠ []) := by
  obtain ⟨r, i, e, n, cl⟩ := c
  simp only at hipc
  subst hipc
  by_cases hq : t.out_msg = []
  · simp [xmmsc_io_want_out, xmmsc_io_out_handle, x_check_conn, xmmsc_ipc_io_out, hq]
  · cases hd : t.disconnected <;>
      simp [xmmsc_io_want_out, xmmsc_io_out_handle, x_check_conn, xmmsc_ipc_io_out, hq,
        xmmsc_ipc_io_out_callback, hd]

/-- C6 at concrete connections: with nothing buffered the call gives -1 and
changes nothing; after one send it flushes and gives 1. -/
theorem xmmsc_io_out_handle_flush_witness :
    sample_connected.ipc = some sample_ipc ∧
    xmmsc_io_want_out (some sample_connected) = 0 ∧
    xmmsc_io_out_handle 8 (some sample_connected) = (-1, some sample_connected) ∧
    xmmsc_io_want_out (some (xmmsc_send sample_ids sample_connected (Send.signal 7)).2) = 1 ∧
    (xmmsc_io_out_handle 8
      (some (xmmsc_send sample_ids sample_connected (Send.signal 7)).2)).1 = 1 :=
  ⟨rfl, by decide,
    (xmmsc_io_out_handle_flush 8 sample_connected sample_ipc rfl).1 (by decide),
    by decide,
    ((xmmsc_io_out_handle_flush 8
      (xmmsc_send sample_ids sample_connected (Send.signal 7)).2
      { sample_ipc with out_msg :=
          [({ object := 5, cmd := 20, args := [xmms_ipc_arg_t.uint32 7] }, 4294967295)] }
      (by decide)).2.1 (by decide)).2.2.1 (by decide)⟩

/-- C9: on a connection with a transport bound, `xmmsc_io_want_out` returns 1
if output is buffered and not yet flushed to the transport and 0 otherwise, so
its result is true exactly when output is pending: it is 1 after a send, and 0
again once a working transport has taken everything. -/
theorem xmmsc_io_want_out_pending (ids : xmmsc_idnumbers) (c : xmmsc_connection_t)
    (t : xmmsc_ipc_t) (hipc : c.ipc = some t) :
    (xmmsc_io_want_out (some c) = 1 ↔ t.out_msg ≠ []) ∧
    (xmmsc_io_want_out (some c) = 0 ↔ t.out_msg = []) ∧
    (xmmsc_io_want_out (some c) = 0 ∨ xmmsc_io_want_out (some c) = 1) ∧
    (xmmsc_io_want_out (some c) ≠ 0 ↔ t.out_msg ≠ []) ∧
    (∀ s : Send, xmmsc_io_want_out (some (xmmsc_send ids c s).2) = 1) ∧
    (t.disconnected = false → t.out_msg ≠ [] →
      xmmsc_io_want_out (xmmsc_io_out_handle t.out_msg.length (some c)).2 = 0) := by
  obtain ⟨r, i, e, n, cl⟩ := c
  simp only at hipc
  subst hipc
  refine ⟨?_, ?_, ?_, ?_, ?_, ?_⟩
  · by_cases hq : t.out_msg = [] <;>
      simp [xmmsc_io_want_out, x_check_conn, xmmsc_ipc_io_out, hq]
  · by_cases hq : t.out_msg = [] <;>
      simp [xmmsc_io_want_out, x_check_conn, xmmsc_ipc_io_out, hq]
  · by_cases hq : t.out_msg = [] <;>
      simp [xmmsc_io_want_out, x_check_conn, xmmsc_ipc_io_out, hq]
  · by_cases hq : t.out_msg = [] <;>
      simp [xmmsc_io_want_out, x_check_conn, xmmsc_ipc_io_out, hq]
  · intro s
    rw [(xmmsc_send_step ids _ s).2]
    simp [xmmsc_io_want_out, x_check_conn, xmmsc_ipc_io_out, xmmsc_ipc_msg_write]
  · intro hd hq
    simp [xmmsc_io_want_out, xmmsc_io_out_handle, x_check_conn, xmmsc_ipc_io_out, hq,
      xmmsc_ipc_io_out_callback, hd]

/-- C9 at concrete connections: 0 on a connected connection with nothing
buffered, 1 after a send. -/
theorem xmmsc_io_want_out_pending_witness :
    sample_connected.ipc = some sample_ipc ∧
    xmmsc_io_want_out (some sample_connected) = 0 ∧
    xmmsc_io_want_out
      (some (xmmsc_send sample_ids sample_connected (Send.no_arg 0 1)).2) = 1 :=
  ⟨rfl,
    (xmmsc_io_want_out_pending sample_ids sample_connected sample_ipc rfl).2.1.mpr
      (by decide),
    (xmmsc_io_want_out_pending sample_ids sample_connected sample_ipc rfl).2.2.2.2.1
      (Send.no_arg 0 1)⟩

/-- C10: `xmmsc_send_signal_msg` (resp. `xmmsc_send_broadcast_msg`) queues one
message on the transport whose target is the signal object, whose operation is
signal-request (resp. broadcast-request) and whose only argument is the
identifier s, under the next correlation id, and returns a pending result of
class Signal (resp. Broadcast) with that same id, restartable against s. -/
theorem xmmsc_send_signal_broadcast_msg (ids : xmmsc_idnumbers)
    (hdist : ids.XMMS_IPC_CMD_SIGNAL ≠ ids.XMMS_IPC_CMD_BROADCAST)
    (c : xmmsc_connection_t) (t : xmmsc_ipc_t) (hipc : c.ipc = some t) (s : Nat) :
    (xmmsc_send_signal_msg ids c s =
      ({ type := xmmsc_result_type_t.XMMSC_RESULT_CLASS_SIGNAL, cid := c.cmd_id,
         restart_signal := some s, state := xmmsc_result_state_t.pending },
       { c with
         cmd_id := (c.cmd_id + 1) % 2 ^ 32,
         ipc := some { t with out_msg := t.out_msg ++
           [({ object := ids.XMMS_IPC_OBJECT_SIGNAL, cmd := ids.XMMS_IPC_CMD_SIGNAL,
               args := [xmms_ipc_arg_t.uint32 s] }, c.cmd_id)] } })) ∧
    (xmmsc_send_broadcast_msg ids c s =
      ({ type := xmmsc_result_type_t.XMMSC_RESULT_CLASS_BROADCAST, cid := c.cmd_id,
         restart_signal := some s, state := xmmsc_result_state_t.pending },
       { c with
         cmd_id := (c.cmd_id + 1) % 2 ^ 32,
         ipc := some { t with out_msg := t.out_msg ++
           [({ object := ids.XMMS_IPC_OBJECT_SIGNAL, cmd := ids.XMMS_IPC_CMD_BROADCAST,
               args := [xmms_ipc_arg_t.uint32 s] }, c.cmd_id)] } })) := by
  obtain ⟨r, i, e, n, cl⟩ := c
  simp only at hipc
  subst hipc
  constructor
  · simp [xmmsc_send_signal_msg, xmmsc_send_msg, xmmsc_next_id, xmmsc_result_new,
      xmmsc_result_restartable, xmmsc_ipc_msg_write, xmms_ipc_msg_new,
      xmms_ipc_msg_put_uint32, xmms_ipc_msg_get_cmd]
  · simp [xmmsc_send_broadcast_msg, xmmsc_send_msg, xmmsc_next_id, xmmsc_result_new,
      xmmsc_result_restartable, xmmsc_ipc_msg_write, xmms_ipc_msg_new,
      xmms_ipc_msg_put_uint32, xmms_ipc_msg_get_cmd, Ne.symm hdist]

/-- C10 at signal identifier 7 on a connection whose counter is 2^32 - 1. -/
theorem xmmsc_send_signal_broadcast_msg_witness :
    sample_ids.XMMS_IPC_CMD_SIGNAL ≠ sample_ids.XMMS_IPC_CMD_BROADCAST ∧
    sample_connected.ipc = some sample_ipc ∧
    (xmmsc_send_signal_msg sample_ids sample_connected 7).1 =
      { type := xmmsc_result_type_t.XMMSC_RESULT_CLASS_SIGNAL, cid := 4294967295,
        restart_signal := some 7, state := xmmsc_result_state_t.pending } ∧
    (xmmsc_send_broadcast_msg sample_ids sample_connected 7).1 =
      { type := xmmsc_result_type_t.XMMSC_RESULT_CLASS_BROADCAST, cid := 4294967295,
        restart_signal := some 7, state := xmmsc_result_state_t.pending } :=
  ⟨by decide, rfl,
    congrArg Prod.fst
      (xmmsc_send_signal_broadcast_msg sample_ids (by decide) sample_connected sample_ipc
        rfl 7).1,
    congrArg Prod.fst
      (xmmsc_send_signal_broadcast_msg sample_ids (by decide) sample_connected sample_ipc
        rfl 7).2⟩

/-- C7: when the transport cannot be opened, `xmmsc_connect` returns failure
and sets the last error to a non-null message; nothing else happens: the
transport object it created has nothing written to it (no hello message, no
flush), the command-id counter is unchanged and the connection's transport
field is what it was (none bound on a fresh connection). -/
theorem xmmsc_connect_transport_failure (ids : xmmsc_idnumbers) (env : Env)
    (c : xmmsc_connection_t) (ipcpath : Option (List Char)) (path : CStr)
    (hpath : xmmsc_connect_path env ipcpath = some path)
    (hfail : env.ipc_connect_ok path = false)
    (hmem : env.strdup_ok = true) :
    (xmmsc_connect ids env (some c) ipcpath).ret = 0 ∧
    (xmmsc_connect ids env (some c) ipcpath).conn =
      some { c with error := some "xmms2d is not running.".toList } ∧
    xmmsc_get_last_error (xmmsc_connect ids env (some c) ipcpath).conn ≠ none ∧
    (∃ c1, (xmmsc_connect ids env (some c) ipcpath).conn = some c1 ∧
      c1.cmd_id = c.cmd_id ∧ c1.ipc = c.ipc ∧ (c.ipc = none → c1.ipc = none)) ∧
    (∃ t, (xmmsc_connect ids env (some c) ipcpath).ipc = some t ∧
      t.out_msg = [] ∧ t.flushed = [] ∧ t.flush_calls = 0) := by
  have hres : xmmsc_connect ids env (some c) ipcpath =
      { ret := 0,
        conn := some { c with error := some "xmms2d is not running.".toList },
        ipc := some xmmsc_ipc_init } := by
    simp [xmmsc_connect, hpath, xmmsc_ipc_connect, hfail, strdup, hmem]
  rw [hres]
  refine ⟨rfl, rfl, by simp [xmmsc_get_last_error], ⟨_, rfl, rfl, rfl, fun h => h⟩,
    ⟨_, rfl, rfl, rfl, rfl⟩⟩

/-- C7 on the fresh connection of "player1" in a world where no daemon
listens. -/
theorem xmmsc_connect_transport_failure_witness :
    xmmsc_connect_path dead_env (some "unix:///tmp/test-ipc".toList) =
      some "unix:///tmp/test-ipc".toList ∧
    dead_env.ipc_connect_ok "unix:///tmp/test-ipc".toList = false ∧
    dead_env.strdup_ok = true ∧
    (xmmsc_connect sample_ids dead_env (some sample_conn)
      (some "unix:///tmp/test-ipc".toList)).ret = 0 ∧
    (xmmsc_connect sample_ids dead_env (some sample_conn)
      (some "unix:///tmp/test-ipc".toList)).conn =
      some { sample_conn with error := some "xmms2d is not running.".toList } :=
  ⟨by decide, rfl, rfl,
    (xmmsc_connect_transport_failure sample_ids dead_env sample_conn
      (some "unix:///tmp/test-ipc".toList) "unix:///tmp/test-ipc".toList
      (by decide) rfl rfl).1,
    (xmmsc_connect_transport_failure sample_ids dead_env sample_conn
      (some "unix:///tmp/test-ipc".toList) "unix:///tmp/test-ipc".toList
      (by decide) rfl rfl).2.1⟩

/-- Handshake of `xmmsc_connect` once the transport is open, on a connection
with no error set: exactly one message is sent, the hello (main object, hello
operation, arguments: version 1, then the client name), under the next command
id, and its result is waited for. If the daemon answers with an unsigned
status the call returns 1 and the last error is still null. With any other
outcome the call reaches `strdup (xmmsc_ipc_error_get (ipc))`: when the
transport adapter holds an error text (as after a broken transport) the call
returns 0 with the copy of that text as last error; when it holds none, the
argument of `strdup` is NULL and the call is undefined. -/
theorem xmmsc_connect_handshake (ids : xmmsc_idnumbers) (env : Env)
    (c : xmmsc_connection_t) (ipcpath : Option (List Char)) (path : CStr)
    (hpath : xmmsc_connect_path env ipcpath = some path)
    (hopen : env.ipc_connect_ok path = true)
    (hfresh : c.error = none) :
    (∃ c1 t1, (xmmsc_connect ids env (some c) ipcpath).conn = some c1 ∧
      c1.ipc = some t1 ∧ (xmmsc_connect ids env (some c) ipcpath).ipc = some t1 ∧
      t1.path = some path ∧
      t1.flushed ++ t1.out_msg =
        [({ object := ids.XMMS_IPC_OBJECT_MAIN, cmd := ids.XMMS_IPC_CMD_HELLO,
            args := [xmms_ipc_arg_t.int32 1, xmms_ipc_arg_t.string c.clientname] },
          c.cmd_id)] ∧
      c1.cmd_id = (c.cmd_id + 1) % 2 ^ 32) ∧
    (∀ n, env.daemon
        [({ object := ids.XMMS_IPC_OBJECT_MAIN, cmd := ids.XMMS_IPC_CMD_HELLO,
            args := [xmms_ipc_arg_t.int32 1, xmms_ipc_arg_t.string c.clientname] },
          c.cmd_id)] c.cmd_id = Reply.value (xmmsc_value_t.uint32 n) →
      (xmmsc_connect ids env (some c) ipcpath).undefined = false ∧
      (xmmsc_connect ids env (some c) ipcpath).ret = 1 ∧
      xmmsc_get_last_error (xmmsc_connect ids env (some c) ipcpath).conn = none) ∧
    ((∀ n, env.daemon
        [({ object := ids.XMMS_IPC_OBJECT_MAIN, cmd := ids.XMMS_IPC_CMD_HELLO,
            args := [xmms_ipc_arg_t.int32 1, xmms_ipc_arg_t.string c.clientname] },
          c.cmd_id)] c.cmd_id ≠ Reply.value (xmmsc_value_t.uint32 n)) →
      (∀ text,
        (xmmsc_connect ids env (some c) ipcpath).ipc.bind xmmsc_ipc_error_get = some text →
        (xmmsc_connect ids env (some c) ipcpath).undefined = false ∧
        (xmmsc_connect ids env (some c) ipcpath).ret = 0 ∧
        (env.strdup_ok = true →
          xmmsc_get_last_error (xmmsc_connect ids env (some c) ipcpath).conn = some text)) ∧
      ((xmmsc_connect ids env (some c) ipcpath).ipc.bind xmmsc_ipc_error_get = none →
        (xmmsc_connect ids env (some c) ipcpath).undefined = true)) ∧
    (∀ msg, env.daemon
        [({ object := ids.XMMS_IPC_OBJECT_MAIN, cmd := ids.XMMS_IPC_CMD_HELLO,
            args := [xmms_ipc_arg_t.int32 1, xmms_ipc_arg_t.string c.clientname] },
          c.cmd_id)] c.cmd_id = Reply.broken msg →
      (xmmsc_connect ids env (some c) ipcpath).ipc.bind xmmsc_ipc_error_get = some msg) ∧
    (∀ msg, env.daemon
        [({ object := ids.XMMS_IPC_OBJECT_MAIN, cmd := ids.XMMS_IPC_CMD_HELLO,
            args := [xmms_ipc_arg_t.int32 1, xmms_ipc_arg_t.string c.clientname] },
          c.cmd_id)] c.cmd_id = Reply.error msg →
      (xmmsc_connect ids env (some c) ipcpath).ipc.bind xmmsc_ipc_error_get = none ∧
      (xmmsc_connect ids env (some c) ipcpath).undefined = true) := by
  obtain ⟨r, i, e, n, cl⟩ := c
  simp only at hfresh
  subst hfresh
  cases hr : env.daemon
      [({ object := ids.XMMS_IPC_OBJECT_MAIN, cmd := ids.XMMS_IPC_CMD_HELLO,
          args := [xmms_ipc_arg_t.int32 1, xmms_ipc_arg_t.string cl] }, n)] n with
  | value v =>
    cases v <;>
      simp [xmmsc_connect, hpath, xmmsc_ipc_connect, hopen, xmmsc_send_hello, xmmsc_send_msg,
        xmmsc_next_id, xmmsc_ipc_msg_write, xmmsc_ipc_init, xmmsc_result_new,
        xmmsc_result_wait, xmms_ipc_msg_new, xmms_ipc_msg_put_int32, xmms_ipc_msg_put_string,
        xmmsc_result_get_uint, xmmsc_ipc_io_out_callback, xmmsc_get_last_error, strdup,
        xmmsc_ipc_error_get, hr]
  | error msg =>
    simp [xmmsc_connect, hpath, xmmsc_ipc_connect, hopen, xmmsc_send_hello, xmmsc_send_msg,
        xmmsc_next_id, xmmsc_ipc_msg_write, xmmsc_ipc_init, xmmsc_result_new,
        xmmsc_result_wait, xmms_ipc_msg_new, xmms_ipc_msg_put_int32, xmms_ipc_msg_put_string,
        xmmsc_result_get_uint, xmmsc_ipc_io_out_callback, xmmsc_get_last_error, strdup,
        xmmsc_ipc_error_get, hr]
  | broken msg =>
    cases hm : env.strdup_ok <;>
      simp [xmmsc_connect, hpath, xmmsc_ipc_connect, hopen, xmmsc_send_hello, xmmsc_send_msg,
        xmmsc_next_id, xmmsc_ipc_msg_write, xmmsc_ipc_init, xmmsc_result_new,
        xmmsc_result_wait, xmms_ipc_msg_new, xmms_ipc_msg_put_int32, xmms_ipc_msg_put_string,
        xmmsc_result_get_uint, xmmsc_ipc_io_out_callback, xmmsc_get_last_error, strdup,
        xmmsc_ipc_error_get, hr, hm]

/-- The handshake on the scenario of the specification: `xmmsc_init
("player1")`, then `xmmsc_connect` to "unix:///tmp/test-ipc" against a daemon
that answers hello with status 1 returns 1 with a null last error; against a
byte stream that breaks it returns 0 and the last error is the transport's
text. -/
theorem xmmsc_connect_handshake_witness :
    (xmmsc_init ⟨true, true⟩ (some "player1".toList)).ret = some sample_conn ∧
    xmmsc_connect_path mock_env (some "unix:///tmp/test-ipc".toList) =
      some "unix:///tmp/test-ipc".toList ∧
    mock_env.ipc_connect_ok "unix:///tmp/test-ipc".toList = true ∧
    sample_conn.error = none ∧
    ((xmmsc_connect sample_ids mock_env (some sample_conn)
        (some "unix:///tmp/test-ipc".toList)).ret = 1 ∧
      xmmsc_get_last_error (xmmsc_connect sample_ids mock_env (some sample_conn)
        (some "unix:///tmp/test-ipc".toList)).conn = none) ∧
    ((xmmsc_connect sample_ids broken_env (some sample_conn)
        (some "unix:///tmp/test-ipc".toList)).ret = 0 ∧
      xmmsc_get_last_error (xmmsc_connect sample_ids broken_env (some sample_conn)
        (some "unix:///tmp/test-ipc".toList)).conn = some "Disconnected".toList) :=
  ⟨by decide, by decide, rfl, rfl,
    ((xmmsc_connect_handshake sample_ids mock_env sample_conn
      (some "unix:///tmp/test-ipc".toList) "unix:///tmp/test-ipc".toList
      (by decide) rfl rfl).2.1 1 rfl).2,
    ⟨(((xmmsc_connect_handshake sample_ids broken_env sample_conn
        (some "unix:///tmp/test-ipc".toList) "unix:///tmp/test-ipc".toList
        (by decide) rfl rfl).2.2.1 (fun _ h => by cases h)).1 "Disconnected".toList
        (by decide)).2.1,
     (((xmmsc_connect_handshake sample_ids broken_env sample_conn
        (some "unix:///tmp/test-ipc".toList) "unix:///tmp/test-ipc".toList
        (by decide) rfl rfl).2.2.1 (fun _ h => by cases h)).1 "Disconnected".toList
        (by decide)).2.2 rfl⟩⟩

theorem cstr_eq_self (s : List Char) (h : ∀ ch ∈ s, ch.toNat ≠ 0) : cstr s = s := by
  unfold cstr
  rw [List.takeWhile_eq_self_iff]
  intro ch hch
  simpa using h ch hch

theorem xmmsc_connect_opens_at_path (ids : xmmsc_idnumbers) (env : Env)
    (c : xmmsc_connection_t) (a : Option (List Char)) (path : CStr)
    (hpath : xmmsc_connect_path env a = some path)
    (hopen : env.ipc_connect_ok path = true) :
    ∃ t, (xmmsc_connect ids env (some c) a).ipc = some t ∧ t.path = some path := by
  cases hr : env.daemon
      [({ object := ids.XMMS_IPC_OBJECT_MAIN, cmd := ids.XMMS_IPC_CMD_HELLO,
          args := [xmms_ipc_arg_t.int32 1, xmms_ipc_arg_t.string c.clientname] },
        c.cmd_id)] c.cmd_id with
  | value v =>
    cases v <;>
      simp [xmmsc_connect, hpath, xmmsc_ipc_connect, hopen, xmmsc_send_hello, xmmsc_send_msg,
        xmmsc_next_id, xmmsc_ipc_msg_write, xmmsc_ipc_init, xmmsc_result_new,
        xmmsc_result_wait, xmms_ipc_msg_new, xmms_ipc_msg_put_int32, xmms_ipc_msg_put_string,
        xmmsc_result_get_uint, xmmsc_ipc_io_out_callback, xmmsc_ipc_error_get, hr]
  | error msg =>
    simp [xmmsc_connect, hpath, xmmsc_ipc_connect, hopen, xmmsc_send_hello, xmmsc_send_msg,
      xmmsc_next_id, xmmsc_ipc_msg_write, xmmsc_ipc_init, xmmsc_result_new,
      xmmsc_result_wait, xmms_ipc_msg_new, xmms_ipc_msg_put_int32, xmms_ipc_msg_put_string,
      xmmsc_result_get_uint, xmmsc_ipc_io_out_callback, xmmsc_ipc_error_get, hr]
  | broken msg =>
    simp [xmmsc_connect, hpath, xmmsc_ipc_connect, hopen, xmmsc_send_hello, xmmsc_send_msg,
      xmmsc_next_id, xmmsc_ipc_msg_write, xmmsc_ipc_init, xmmsc_result_new,
      xmmsc_result_wait, xmms_ipc_msg_new, xmms_ipc_msg_put_int32, xmms_ipc_msg_put_string,
      xmmsc_result_get_uint, xmmsc_ipc_io_out_callback, xmmsc_ipc_error_get, hr]

/-! ## Claims on the fresh connection and on the address -/

/-- C11: every connection a successful `xmmsc_init` returns has reference
count exactly 1, a null last error, command-id counter 0, no transport, and as
client name the string passed in. -/
theorem xmmsc_init_fresh_connection (mem : Mem) (name : List Char)
    (c : xmmsc_connection_t)
    (hret : (xmmsc_init mem (some name)).ret = some c) :
    c.ref = 1 ∧ xmmsc_get_last_error (some c) = none ∧ c.cmd_id = 0 ∧
    c.clientname = some (cstr name) ∧
    ((∀ ch ∈ name, ch.toNat ≠ 0) → c.clientname = some name) ∧
    c.ipc = none := by
  have hw : wrap_int (0 + 1) = 1 := by decide
  have hc : c = { ref := 1, ipc := none, error := none, cmd_id := 0,
                  clientname := some (cstr name) } := by
    revert hret
    cases h1 : mem.x_new0_ok <;> cases h2 : xmmsc_init_scan name <;>
      cases h3 : mem.strdup_ok <;>
      simp [xmmsc_init, strdup, xmmsc_ref, h1, h2, h3, x_new0_connection, hw]
    intro h
    exact h.symm
  subst hc
  refine ⟨rfl, rfl, rfl, rfl, ?_, rfl⟩
  intro h
  simp only [cstr_eq_self name h]

/-- C11 at the name "player1": the call succeeds and returns the connection
with count 1, no error, counter 0 and that name. -/
theorem xmmsc_init_fresh_connection_witness :
    (xmmsc_init ⟨true, true⟩ (some "player1".toList)).ret = some sample_conn ∧
    sample_conn.ref = 1 ∧ xmmsc_get_last_error (some sample_conn) = none ∧
    sample_conn.cmd_id = 0 ∧ sample_conn.clientname = some "player1".toList :=
  ⟨by decide,
    (xmmsc_init_fresh_connection ⟨true, true⟩ "player1".toList sample_conn (by decide)).1,
    (xmmsc_init_fresh_connection ⟨true, true⟩ "player1".toList sample_conn (by decide)).2.1,
    (xmmsc_init_fresh_connection ⟨true, true⟩ "player1".toList sample_conn
      (by decide)).2.2.1,
    (xmmsc_init_fresh_connection ⟨true, true⟩ "player1".toList sample_conn
      (by decide)).2.2.2.2.1 (by decide)⟩

/-- C12 as stated fails: with `PATH_MAX` = 4096 an address string of 4104
characters is not handed to the transport verbatim; `snprintf` keeps its first
4095 characters. -/
theorem xmmsc_connect_path_counterexample :
    long_address.length = 4104 ∧
    (∀ ch ∈ long_address, ch.toNat ≠ 0) ∧
    xmmsc_connect_path mock_env (some long_address) = some (long_address.take 4095) ∧
    xmmsc_connect_path mock_env (some long_address) ≠ some long_address := by
  have hlen : long_address.length = 4104 := by
    simp only [long_address, List.length_append, List.length_replicate]
    decide
  have hscheme : ∀ ch ∈ "unix:///".toList, ch.toNat ≠ 0 := by decide
  have hnul : ∀ ch ∈ long_address, ch.toNat ≠ 0 := by
    intro ch hch
    simp only [long_address, List.mem_append, List.mem_replicate] at hch
    rcases hch with h | ⟨_, h⟩
    · exact hscheme ch h
    · subst h
      decide
  have hpath : xmmsc_connect_path mock_env (some long_address) =
      some (long_address.take 4095) := by
    simp [xmmsc_connect_path, snprintf_s, cstr_eq_self long_address hnul, mock_env]
  refine ⟨hlen, hnul, hpath, ?_⟩
  rw [hpath]
  intro h
  have h2 := congrArg List.length (Option.some.inj h)
  rw [List.length_take, hlen] at h2
  omega

/-- C12 amended: a caller-supplied address string shorter than `PATH_MAX` is
handed to the transport adapter verbatim, a longer one cut to its first
`PATH_MAX - 1` characters; with no address supplied the address is
"unix:///tmp/xmms-ipc-" followed by the user's name (cut the same way), and
when the user cannot be resolved `xmmsc_connect` returns failure with the
connection untouched and no transport created. The address computed is the
one the transport is opened at. -/
theorem xmmsc_connect_address (ids : xmmsc_idnumbers) (env : Env)
    (c : xmmsc_connection_t) (p : List Char) (hp : ∀ ch ∈ p, ch.toNat ≠ 0) :
    xmmsc_connect_path env (some p) = some (p.take (env.PATH_MAX - 1)) ∧
    (p.length < env.PATH_MAX → xmmsc_connect_path env (some p) = some p) ∧
    (∀ u, env.pw_name = some u → (∀ ch ∈ u, ch.toNat ≠ 0) →
      xmmsc_connect_path env none =
        some (("unix:///tmp/xmms-ipc-".toList ++ u).take (env.PATH_MAX - 1)) ∧
      (("unix:///tmp/xmms-ipc-".toList ++ u).length < env.PATH_MAX →
        xmmsc_connect_path env none = some ("unix:///tmp/xmms-ipc-".toList ++ u))) ∧
    (env.pw_name = none →
      xmmsc_connect ids env (some c) none = { ret := 0, conn := some c, ipc := none }) ∧
    (∀ a path, xmmsc_connect_path env a = some path → env.ipc_connect_ok path = true →
      ∃ t, (xmmsc_connect ids env (some c) a).ipc = some t ∧ t.path = some path) := by
  have h1 : xmmsc_connect_path env (some p) = some (p.take (env.PATH_MAX - 1)) := by
    simp [xmmsc_connect_path, snprintf_s, cstr_eq_self p hp]
  refine ⟨h1, ?_, ?_, ?_, ?_⟩
  · intro hlen
    rw [h1, List.take_of_length_le (by omega)]
  · intro u hu hnul
    have hhead : ∀ ch ∈ "unix:///tmp/xmms-ipc-".toList, ch.toNat ≠ 0 := by decide
    have hall : ∀ ch ∈ "unix:///tmp/xmms-ipc-".toList ++ u, ch.toNat ≠ 0 := by
      intro ch hch
      rcases List.mem_append.mp hch with h | h
      · exact hhead ch h
      · exact hnul ch h
    have h2 : xmmsc_connect_path env none =
        some (("unix:///tmp/xmms-ipc-".toList ++ u).take (env.PATH_MAX - 1)) := by
      simp only [xmmsc_connect_path, hu, snprintf_s, cstr_eq_self _ hall]
    refine ⟨h2, ?_⟩
    intro hlen
    rw [h2, List.take_of_length_le (by omega)]
  · intro hnone
    simp [xmmsc_connect, xmmsc_connect_path, hnone]
  · intro a path hpath hopen
    exact xmmsc_connect_opens_at_path ids env c a path hpath hopen

/-- C12 amended, at the address "unix:///tmp/test-ipc" and at the default
address of the user "user". -/
theorem xmmsc_connect_address_witness :
    (∀ ch ∈ "unix:///tmp/test-ipc".toList, ch.toNat ≠ 0) ∧
    xmmsc_connect_path mock_env (some "unix:///tmp/test-ipc".toList) =
      some "unix:///tmp/test-ipc".toList ∧
    xmmsc_connect_path mock_env none = some "unix:///tmp/xmms-ipc-user".toList :=
  ⟨by decide,
    (xmmsc_connect_address sample_ids mock_env sample_conn "unix:///tmp/test-ipc".toList
      (by decide)).2.1 (by decide),
    ((xmmsc_connect_address sample_ids mock_env sample_conn "unix:///tmp/test-ipc".toList
      (by decide)).2.2.1 "user".toList rfl (by decide)).2 (by decide)⟩

/-! ## Claims on the AdPlug plugin -/

theorem wrap_int64_eq_self (x : Int) (h1 : -2 ^ 63 ≤ x) (h2 : x < 2 ^ 63) :
    wrap_int64 x = x := by
  unfold wrap_int64
  omega

theorem xmms_adplug_seek_set_eq (x : xmms_xform_t) (data : xmms_adplug_data_t)
    (hdata : x.private_data = some data) (hfreq : 0 < data.freq)
    (samples : Int) (h0 : 0 ≤ samples) (hov : samples * 1000 < 2 ^ 63) :
    xmms_adplug_seek (some x) samples xmms_xform_seek_mode_t.XMMS_XFORM_SEEK_SET =
      (samples * 1000 / data.freq * data.freq / 1000,
       some { x with private_data := some { data with
         seeks := data.seeks ++ [samples * 1000 / data.freq] } }) := by
  have hs : 0 ≤ samples * 1000 := by omega
  have hms0 : 0 ≤ samples * 1000 / data.freq := Int.ediv_nonneg hs (le_of_lt hfreq)
  have hmsle : samples * 1000 / data.freq * data.freq ≤ samples * 1000 :=
    Int.ediv_mul_le _ (ne_of_gt hfreq)
  have hmsle2 : samples * 1000 / data.freq ≤ samples * 1000 :=
    Int.ediv_le_self _ hs
  have hp0 : 0 ≤ samples * 1000 / data.freq * data.freq :=
    mul_nonneg hms0 (le_of_lt hfreq)
  have hr0 : 0 ≤ samples * 1000 / data.freq * data.freq / 1000 :=
    Int.ediv_nonneg hp0 (by norm_num)
  have hrle : samples * 1000 / data.freq * data.freq / 1000 ≤
      samples * 1000 / data.freq * data.freq := Int.ediv_le_self _ hp0
  have e1 : wrap_int64 (samples * 1000) = samples * 1000 :=
    wrap_int64_eq_self _ (by omega) hov
  have e2 : Int.tdiv (samples * 1000) data.freq = samples * 1000 / data.freq :=
    Int.tdiv_eq_ediv hs (le_of_lt hfreq)
  have e3 : wrap_int64 (samples * 1000 / data.freq) = samples * 1000 / data.freq :=
    wrap_int64_eq_self _ (by omega) (by omega)
  have e4 : wrap_int64 (samples * 1000 / data.freq * data.freq) =
      samples * 1000 / data.freq * data.freq :=
    wrap_int64_eq_self _ (by omega) (by omega)
  have e5 : Int.tdiv (samples * 1000 / data.freq * data.freq) 1000 =
      samples * 1000 / data.freq * data.freq / 1000 :=
    Int.tdiv_eq_ediv hp0 (by norm_num)
  have e6 : wrap_int64 (samples * 1000 / data.freq * data.freq / 1000) =
      samples * 1000 / data.freq * data.freq / 1000 :=
    wrap_int64_eq_self _ (by omega) (by omega)
  simp only [xmms_adplug_seek, hdata, ne_eq, not_true_eq_false, if_false, e1, e2, e3, e4,
    e5, e6]

/-- C15 as stated fails: at 44100 Hz a seek to sample 45 puts the player at
millisecond 1 and returns 44, but 44 converts back to millisecond 0, and a
seek to the returned 44 returns 0, not 44. -/
theorem xmms_adplug_seek_counterexample :
    (xmms_adplug_seek (some sample_xform_44100) 45
      xmms_xform_seek_mode_t.XMMS_XFORM_SEEK_SET).1 = 44 ∧
    (45 : Int) * 1000 / 44100 = 1 ∧
    ¬ ((44 : Int) * 1000 / 44100 = 1) ∧
    ¬ ((xmms_adplug_seek (some sample_xform_44100) 44
      xmms_xform_seek_mode_t.XMMS_XFORM_SEEK_SET).1 = 44) := by
  decide

/-- C15 amended: for freq > 0 and samples >= 0 with samples*1000 below 2^63,
`xmms_adplug_seek` with SEEK_SET seeks the player to ms = samples*1000/freq and
returns r = ms*freq/1000, with 0 <= r <= samples and r*1000/freq <= ms; when
freq is a multiple of 1000 (as the default 48000) r converts back to exactly
ms and a seek to r returns r again. With any other mode it returns -1 and
leaves the player alone. -/
theorem xmms_adplug_seek_position (x : xmms_xform_t) (data : xmms_adplug_data_t)
    (hdata : x.private_data = some data) (hfreq : 0 < data.freq)
    (samples : Int) (h0 : 0 ≤ samples) (hov : samples * 1000 < 2 ^ 63) :
    xmms_adplug_seek (some x) samples xmms_xform_seek_mode_t.XMMS_XFORM_SEEK_SET =
      (samples * 1000 / data.freq * data.freq / 1000,
       some { x with private_data := some { data with
         seeks := data.seeks ++ [samples * 1000 / data.freq] } }) ∧
    0 ≤ samples * 1000 / data.freq * data.freq / 1000 ∧
    samples * 1000 / data.freq * data.freq / 1000 ≤ samples ∧
    samples * 1000 / data.freq * data.freq / 1000 * 1000 / data.freq ≤
      samples * 1000 / data.freq ∧
    ((1000 : Int) ∣ data.freq →
      samples * 1000 / data.freq * data.freq / 1000 * 1000 / data.freq =
        samples * 1000 / data.freq ∧
      (xmms_adplug_seek (some x) (samples * 1000 / data.freq * data.freq / 1000)
        xmms_xform_seek_mode_t.XMMS_XFORM_SEEK_SET).1 =
        samples * 1000 / data.freq * data.freq / 1000) ∧
    (∀ whence, whence ≠ xmms_xform_seek_mode_t.XMMS_XFORM_SEEK_SET →
      xmms_adplug_seek (some x) samples whence = (-1, some x)) := by
  have hs : 0 ≤ samples * 1000 := by omega
  have hne : data.freq ≠ 0 := ne_of_gt hfreq
  have hms0 : 0 ≤ samples * 1000 / data.freq := Int.ediv_nonneg hs (le_of_lt hfreq)
  have hmsle : samples * 1000 / data.freq * data.freq ≤ samples * 1000 :=
    Int.ediv_mul_le _ hne
  have hp0 : 0 ≤ samples * 1000 / data.freq * data.freq :=
    mul_nonneg hms0 (le_of_lt hfreq)
  have hr0 : 0 ≤ samples * 1000 / data.freq * data.freq / 1000 :=
    Int.ediv_nonneg hp0 (by norm_num)
  have hrle : samples * 1000 / data.freq * data.freq / 1000 ≤ samples :=
    Int.ediv_le_of_le_mul (by norm_num) hmsle
  have hback : samples * 1000 / data.freq * data.freq / 1000 * 1000 ≤
      samples * 1000 / data.freq * data.freq := Int.ediv_mul_le _ (by norm_num)
  refine ⟨xmms_adplug_seek_set_eq x data hdata hfreq samples h0 hov, hr0, hrle,
    Int.ediv_le_of_le_mul hfreq hback, ?_, ?_⟩
  · rintro ⟨k, hk⟩
    have hk0 : 0 < k := by omega
    have hr : samples * 1000 / data.freq * data.freq / 1000 =
        samples * 1000 / data.freq * k := by
      rw [hk, ← mul_assoc, mul_comm (samples * 1000 / (1000 * k)) 1000, mul_assoc]
      exact Int.mul_ediv_cancel_left _ (by norm_num)
    have hconv : samples * 1000 / data.freq * data.freq / 1000 * 1000 / data.freq =
        samples * 1000 / data.freq := by
      rw [hr]
      have : samples * 1000 / data.freq * k * 1000 =
          samples * 1000 / data.freq * data.freq := by
        rw [hk]; ring
      rw [this]
      exact Int.mul_ediv_cancel _ hne
    refine ⟨hconv, ?_⟩
    rw [xmms_adplug_seek_set_eq x data hdata hfreq _ hr0 (by omega)]
    simp only [hconv]
  · intro whence hw
    simp [xmms_adplug_seek, hw]

/-- C15 amended, at the default 48000 Hz: a seek to sample 100 puts the player
at millisecond 2 and returns 96, and a seek to 96 returns 96. -/
theorem xmms_adplug_seek_position_witness :
    sample_xform_48000.private_data = some { freq := 48000, channels := 2, seeks := [] } ∧
    (0 : Int) < 48000 ∧ (0 : Int) ≤ 100 ∧ (100 : Int) * 1000 < 2 ^ 63 ∧
    (xmms_adplug_seek (some sample_xform_48000) 100
      xmms_xform_seek_mode_t.XMMS_XFORM_SEEK_SET).1 = 96 ∧
    (xmms_adplug_seek (some sample_xform_48000) 96
      xmms_xform_seek_mode_t.XMMS_XFORM_SEEK_SET).1 = 96 ∧
    xmms_adplug_seek (some sample_xform_48000) 100
      xmms_xform_seek_mode_t.XMMS_XFORM_SEEK_CUR = (-1, some sample_xform_48000) :=
  ⟨rfl, by decide, by decide, by decide,
    (congrArg Prod.fst (xmms_adplug_seek_position sample_xform_48000
      { freq := 48000, channels := 2, seeks := [] } rfl (by decide) 100 (by decide)
      (by decide)).1).trans (by decide),
    ((xmms_adplug_seek_position sample_xform_48000
      { freq := 48000, channels := 2, seeks := [] } rfl (by decide) 100 (by decide)
      (by decide)).2.2.2.2.1 (by decide)).2,
    (xmms_adplug_seek_position sample_xform_48000
      { freq := 48000, channels := 2, seeks := [] } rfl (by decide) 100 (by decide)
      (by decide)).2.2.2.2.2 _ (by decide)⟩

theorem xmms_adplug_midi_header_eq (d : List Nat) (t : Int) (hn : d.length < 2 ^ 32) :
    xmms_adplug_midi_header d t =
      [77, 84, 104, 100, 0, 0, 0, 6, 0, 0, 0, 1,
       ((t / 2 ^ 8) % 256).toNat, (t % 256).toNat,
       77, 84, 114, 107,
       (d.length / 2 ^ 24) % 256, (d.length / 2 ^ 16) % 256, (d.length / 2 ^ 8) % 256,
       d.length % 256] ++ d := by
  have hmod : d.length % 2 ^ 32 = d.length := Nat.mod_eq_of_lt hn
  simp only [xmms_adplug_midi_header, midi_header_template, hmod]
  simp

/-- C16: for raw-MIDI input of n < 2^32 bytes with auxdata tempo t, the buffer
`xmms_adplug_init` hands to AdPlug is 22 header bytes followed by the n
original bytes: 'MThd', 00 00 00 06, 00 00, 00 01, the two bytes of t mod 2^16
(high byte first; they give back t when 0 <= t < 65536), 'MTrk', and the four
bytes of n (high byte first). Without the tempo auxdata init returns FALSE and
nothing is handed to AdPlug. -/
theorem xmms_adplug_init_rawmidi_header (factory : CStr → List Nat → Bool)
    (x : xmms_xform_t) (d : List Nat)
    (hmime : x.mimetype = "audio/rawmidi".toList)
    (hread : xmms_adplug_read_all x.reads = some d)
    (hn : d.length < 2 ^ 32) :
    (∀ t : Int, x.tempo = some t →
      ∃ b12 b13 b18 b19 b20 b21 : Nat,
        (xmms_adplug_init factory (some x)).buffer =
          some ([77, 84, 104, 100, 0, 0, 0, 6, 0, 0, 0, 1, b12, b13,
                 77, 84, 114, 107, b18, b19, b20, b21] ++ d) ∧
        (b12 < 256 ∧ b13 < 256 ∧ b18 < 256 ∧ b19 < 256 ∧ b20 < 256 ∧ b21 < 256) ∧
        ((b12 : Int) * 256 + b13 = t % 2 ^ 16) ∧
        (0 ≤ t → t < 65536 → (b12 : Int) * 256 + b13 = t) ∧
        b18 * 2 ^ 24 + b19 * 2 ^ 16 + b20 * 2 ^ 8 + b21 = d.length ∧
        (xmms_adplug_init factory (some x)).factory_url = some "test.mid".toList ∧
        (xmms_adplug_init factory (some x)).ret =
          factory "test.mid".toList
            ([77, 84, 104, 100, 0, 0, 0, 6, 0, 0, 0, 1, b12, b13,
              77, 84, 114, 107, b18, b19, b20, b21] ++ d)) ∧
    (x.tempo = none →
      (xmms_adplug_init factory (some x)).ret = false ∧
      (xmms_adplug_init factory (some x)).buffer = none) := by
  constructor
  · intro t ht
    refine ⟨((t / 2 ^ 8) % 256).toNat, (t % 256).toNat, (d.length / 2 ^ 24) % 256,
      (d.length / 2 ^ 16) % 256, (d.length / 2 ^ 8) % 256, d.length % 256, ?_, ?_, ?_, ?_,
      ?_, ?_, ?_⟩
    · simp only [xmms_adplug_init, hread, hmime, ht, decide_True, if_true,
        xmms_adplug_midi_header_eq d t hn]
    · refine ⟨?_, ?_, ?_, ?_, ?_, ?_⟩ <;> omega
    · omega
    · intro h0 h1
      omega
    · omega
    · simp only [xmms_adplug_init, hread, hmime, ht, decide_True, if_true]
    · simp only [xmms_adplug_init, hread, hmime, ht, decide_True, if_true,
        xmms_adplug_midi_header_eq d t hn]
  · intro ht
    simp [xmms_adplug_init, hread, hmime, ht]

/-- C16 on five bytes of raw MIDI with tempo 480: the buffer is the header
with 01 E0 and 00 00 00 05 filled in, followed by the five bytes; with the
tempo missing init fails. -/
theorem xmms_adplug_init_rawmidi_header_witness :
    sample_xform_rawmidi.mimetype = "audio/rawmidi".toList ∧
    xmms_adplug_read_all sample_xform_rawmidi.reads = some [0, 144, 60, 100, 0] ∧
    (xmms_adplug_init (fun _ _ => true) (some sample_xform_rawmidi)).buffer =
      some [77, 84, 104, 100, 0, 0, 0, 6, 0, 0, 0, 1, 1, 224,
            77, 84, 114, 107, 0, 0, 0, 5, 0, 144, 60, 100, 0] ∧
    (xmms_adplug_init (fun _ _ => true)
      (some { sample_xform_rawmidi with tempo := none })).ret = false :=
  ⟨rfl, by decide, by decide,
    ((xmms_adplug_init_rawmidi_header (fun _ _ => true)
      { sample_xform_rawmidi with tempo := none } [0, 144, 60, 100, 0] rfl (by decide)
      (by decide)).2 rfl).1⟩

/-! ## Lemmas on `xmmsc_entry_format` -/

theorem strncat_length_le (dest src : CStr) (n : Nat) :
    (strncat dest src n).length ≤ dest.length + n := by
  simp only [strncat, List.length_append, List.length_take]
  omega

theorem xmmsc_entry_format_key_length (missing : Int) (len : Nat) (res : xmmsc_dict_t)
    (key target : CStr) (h : target.length ≤ len - 1) :
    (xmmsc_entry_format_key missing len res key target).length ≤ len - 1 := by
  have hcat : ∀ src : CStr, (strncat target src (len - target.length - 1)).length ≤ len - 1 := by
    intro src
    have := strncat_length_le target src (len - target.length - 1)
    omega
  unfold xmmsc_entry_format_key
  split
  · dsimp only
    split
    · exact hcat _
    · exact hcat _
  · split
    · dsimp only
      split
      · exact hcat _
      · exact hcat _
    · split
      · exact hcat _
      · exact hcat _
      · exact hcat _
      · exact h

theorem strstr_key_some_length (pos : List Char) (off : Nat)
    (h : strstr_key pos = some off) : 1 ≤ pos.length := by
  cases pos with
  | nil => simp [strstr_key] at h
  | cons a rest => simp

theorem strstr_key_eq_none_iff (pos : List Char) :
    strstr_key pos = none ↔ ¬ (['$', lbrace] <:+: pos) := by
  induction pos with
  | nil => simp [strstr_key]
  | cons a rest ih =>
    cases rest with
    | nil =>
      simp [strstr_key, List.infix_cons_iff, List.cons_prefix_cons]
    | cons b tail =>
      rw [strstr_key, List.infix_cons_iff]
      by_cases hab : a = '$' ∧ b = lbrace
      · obtain ⟨ha, hb⟩ := hab
        subst ha hb
        simp [List.cons_prefix_cons]
      · have hpre : ¬ (['$', lbrace] <+: a :: b :: tail) := by
          intro hp
          rw [List.cons_prefix_cons] at hp
          obtain ⟨h1, h2⟩ := hp
          rw [List.cons_prefix_cons] at h2
          exact hab ⟨h1.symm, h2.1.symm⟩
        simp only [hab, if_false, Option.map_eq_none', ih, hpre, false_or]

theorem xmmsc_entry_format_loop_bound (missing : Int) (malloc_ok : Nat → Bool) (len : Nat)
    (res : xmmsc_dict_t) (fuel : Nat) :
    ∀ (i : Nat) (target pos : CStr), pos.length < fuel → target.length ≤ len - 1 →
      ∃ t, xmmsc_entry_format_loop missing malloc_ok len res fuel i target pos = some t ∧
        t.length ≤ len - 1 := by
  induction fuel with
  | zero =>
    intro i target pos hfuel
    omega
  | succ fuel ih =>
    intro i target pos hfuel htarget
    rw [xmmsc_entry_format_loop]
    split
    · split
      · refine ⟨_, rfl, ?_⟩
        have := strncat_length_le target pos (len - target.length - 1)
        omega
      · rename_i off hoff
        have hpos := strstr_key_some_length pos off hoff
        have h1 : (strncat target pos (min off (len - target.length - 1))).length ≤
            len - 1 := by
          have := strncat_length_le target pos (min off (len - target.length - 1))
          omega
        simp only
        split
        · exact ⟨_, rfl, h1⟩
        · have h2 := xmmsc_entry_format_key_length missing len res
            (List.take (strcspn_rbrace (List.drop 2 (List.drop off pos)))
              (List.drop 2 (List.drop off pos)))
            (strncat target pos (min off (len - target.length - 1))) h1
          split
          · exact ⟨_, rfl, h2⟩
          · rename_i e he
            apply ih
            · simp only [List.length_drop]
              omega
            · exact h2
    · exact ⟨_, rfl, htarget⟩

theorem xmmsc_entry_format_loop_no_key (missing : Int) (malloc_ok : Nat → Bool) (len : Nat)
    (res : xmmsc_dict_t) (fuel i : Nat) (pos : CStr) (hlen : 1 ≤ len)
    (hkey : strstr_key pos = none) :
    xmmsc_entry_format_loop missing malloc_ok len res (fuel + 1) i [] pos =
      some (pos.take (len - 1)) := by
  rw [xmmsc_entry_format_loop]
  by_cases h : 1 < len
  · simp [h, hkey, strncat]
  · have : len = 1 := by omega
    subst this
    simp

/-! ## Claims on `xmmsc_entry_format` -/

/-- C13: for a buffer length len >= 1, any format and any dictionary (whatever
a failed duration lookup leaves behind and whichever `malloc` calls fail),
`xmmsc_entry_format` ends within the fuel, leaves in `target` a string of at
most len - 1 characters (so its terminator lies inside the buffer) and returns
the length of that string; when the format contains no "${" the string is the
format cut to its first len - 1 characters. -/
theorem xmmsc_entry_format_bounded (missing : Int) (malloc_ok : Nat → Bool) (old : CStr)
    (len : Nat) (fmt : List Char) (res : xmmsc_dict_t) (hlen : 1 ≤ len) :
    (∃ t : CStr,
      xmmsc_entry_format missing malloc_ok (some old) len (some fmt) res =
        some { ret := (t.length : Int), target := some t } ∧
      t.length ≤ len - 1 ∧ t.length + 1 ≤ len) ∧
    (¬ (['$', lbrace] <:+: cstr fmt) →
      xmmsc_entry_format missing malloc_ok (some old) len (some fmt) res =
        some { ret := (((cstr fmt).take (len - 1)).length : Int),
               target := some ((cstr fmt).take (len - 1)) }) ∧
    ((∀ ch ∈ fmt, ch.toNat ≠ 0) → cstr fmt = fmt) := by
  refine ⟨?_, ?_, cstr_eq_self fmt⟩
  · obtain ⟨t, ht, hbound⟩ := xmmsc_entry_format_loop_bound missing malloc_ok len res
      ((cstr fmt).length + 1) 0 [] (cstr fmt) (by omega) (by simp)
    refine ⟨t, ?_, hbound, by omega⟩
    simp only [xmmsc_entry_format, ht, Option.map_some']
  · intro hno
    have hkey := (strstr_key_eq_none_iff (cstr fmt)).mpr hno
    simp only [xmmsc_entry_format,
      xmmsc_entry_format_loop_no_key missing malloc_ok len res _ 0 (cstr fmt) hlen hkey,
      Option.map_some']

/-- C13 on a buffer of 5 bytes: "${artist} - ${id}" yields "Abba" and 4, and
the key-free format "abcdefgh" is cut to "abcd". -/
theorem xmmsc_entry_format_bounded_witness :
    1 ≤ 5 ∧
    xmmsc_entry_format 0 (fun _ => true) (some []) 5
      (some "$\x7bartist\x7d - $\x7bid\x7d".toList) sample_dict =
      some { ret := 4, target := some "Abba".toList } ∧
    xmmsc_entry_format 0 (fun _ => true) (some []) 5 (some "abcdefgh".toList) sample_dict =
      some { ret := 4, target := some "abcd".toList } :=
  ⟨by decide, by decide,
    ((xmmsc_entry_format_bounded 0 (fun _ => true) [] 5 "abcdefgh".toList sample_dict
      (by decide)).2.1 (by decide)).trans (by decide)⟩

/-! ## Lemmas on the printed duration -/

theorem toDigitsCore_length_ge (b f n : Nat) (ds : List Char) :
    ds.length ≤ (Nat.toDigitsCore b f n ds).length := by
  induction f generalizing n ds with
  | zero => simp [Nat.toDigitsCore]
  | succ f ih =>
    rw [Nat.toDigitsCore]
    split
    · simp
    · exact le_trans (by simp) (ih _ _)

theorem toDigits_length_pos (n : Nat) : 1 ≤ (Nat.toDigits 10 n).length := by
  unfold Nat.toDigits
  rw [Nat.toDigitsCore]
  split
  · simp
  · exact le_trans (by simp) (toDigitsCore_length_ge _ _ _ _)

theorem toDigits_length_le_nine (n : Nat) (h : n < 10 ^ 9) :
    (Nat.toDigits 10 n).length ≤ 9 :=
  Nat.toDigitsCore_length 10 (by norm_num) (n + 1) n 9 h (by norm_num)

theorem printf_02d_nonneg (v : Int) (h : 0 ≤ v) :
    printf_02d v =
      (if (Nat.toDigits 10 v.toNat).length < 2 then ['0'] else []) ++
        Nat.toDigits 10 v.toNat := by
  have hn : ¬ v < 0 := by omega
  unfold printf_02d printf_d
  simp only [hn, if_false]
  split <;> simp

theorem printf_02d_length (v : Int) (h0 : 0 ≤ v) (h1 : v < 10 ^ 9) :
    2 ≤ (printf_02d v).length ∧ (printf_02d v).length ≤ 9 := by
  have hpos := toDigits_length_pos v.toNat
  have hle := toDigits_length_le_nine v.toNat (by omega)
  rw [printf_02d_nonneg v h0]
  split <;> simp <;> omega

theorem snprintf_trunc_printf_02d (v : Int) (h0 : 0 ≤ v) (h1 : v < 10 ^ 9) :
    snprintf_trunc 10 (printf_02d v) = printf_02d v := by
  unfold snprintf_trunc
  exact List.take_of_length_le (printf_02d_length v h0 h1).2

theorem strncat_of_room (dest src : CStr) (n : Nat) (h : src.length ≤ n) :
    strncat dest src n = dest ++ src := by
  unfold strncat
  rw [List.take_of_length_le h]

theorem xmmsc_entry_format_key_minutes (missing : Int) (len : Nat) (res : xmmsc_dict_t)
    (target : CStr) (d : Int) (hd0 : 0 ≤ d) (hd1 : d < 2 ^ 31)
    (hdict : xmmsc_result_dict_lookup res "duration".toList = some (xmmsc_value_t.int32 d)) :
    xmmsc_entry_format_key missing len res "minutes".toList target =
      strncat target (printf_02d (d / 60000)) (len - target.length - 1) := by
  have hw : wrap_int d = d := by
    unfold wrap_int
    omega
  have hne : ¬ ("minutes".toList = "seconds".toList) := by decide
  unfold xmmsc_entry_format_key xmmsc_result_get_dict_entry_int32
  simp only [hne, if_false, if_true, hdict, hw]
  by_cases hz : d = 0
  · subst hz
    simp only [if_true]
    rfl
  · simp only [hz, if_false]
    rw [Int.tdiv_eq_ediv hd0 (by norm_num),
      snprintf_trunc_printf_02d _ (Int.ediv_nonneg hd0 (by norm_num)) (by omega)]

theorem xmmsc_entry_format_key_seconds (missing : Int) (len : Nat) (res : xmmsc_dict_t)
    (target : CStr) (d : Int) (hd0 : 0 ≤ d) (hd1 : d < 2 ^ 31)
    (hdict : xmmsc_result_dict_lookup res "duration".toList = some (xmmsc_value_t.int32 d)) :
    xmmsc_entry_format_key missing len res "seconds".toList target =
      strncat target (printf_02d (d / 1000 % 60)) (len - target.length - 1) := by
  have hw : wrap_int d = d := by
    unfold wrap_int
    omega
  unfold xmmsc_entry_format_key xmmsc_result_get_dict_entry_int32
  simp only [if_true, hdict, hw]
  by_cases hz : d = 0
  · subst hz
    simp only [if_true]
    rfl
  · simp only [hz, if_false]
    have hq : 0 ≤ d / 1000 := Int.ediv_nonneg hd0 (by norm_num)
    rw [Int.tdiv_eq_ediv hd0 (by norm_num), Int.tmod_eq_emod hq (by norm_num),
      snprintf_trunc_printf_02d _ (by omega) (by omega)]

theorem xmmsc_entry_format_loop_step (missing : Int) (malloc_ok : Nat → Bool) (len : Nat)
    (res : xmmsc_dict_t) (fuel i : Nat) (target pos : CStr) (off e : Nat)
    (hcond : target.length + 1 < len) (hoff : strstr_key pos = some off)
    (hm : malloc_ok i = true) (he : strchr_rbrace (pos.drop off) = some e) :
    xmmsc_entry_format_loop missing malloc_ok len res (fuel + 1) i target pos =
      xmmsc_entry_format_loop missing malloc_ok len res fuel (i + 1)
        (xmmsc_entry_format_key missing len res
          (((pos.drop off).drop 2).take (strcspn_rbrace ((pos.drop off).drop 2)))
          (strncat target pos (min off (len - target.length - 1))))
        ((pos.drop off).drop (e + 1)) := by
  rw [xmmsc_entry_format_loop]
  simp [hcond, hoff, hm, he]

theorem xmmsc_entry_format_loop_end (missing : Int) (malloc_ok : Nat → Bool) (len : Nat)
    (res : xmmsc_dict_t) (fuel i : Nat) (target : CStr) :
    xmmsc_entry_format_loop missing malloc_ok len res (fuel + 1) i target [] =
      some target := by
  rw [xmmsc_entry_format_loop]
  split <;> simp [strstr_key, strncat]

/-- C14: for a dictionary whose "duration" entry is the int32 d >= 0 and a
buffer with room for the text, `xmmsc_entry_format` with the format
"${minutes}:${seconds}" writes M, a colon and S, where M = d/60000 and
S = (d/1000) mod 60 are printed in decimal with a leading zero when they have
fewer than two digits ("00:00" when d = 0); 0 <= S < 60 and 60*M + S = d/1000. -/
theorem xmmsc_entry_format_minutes_seconds (missing : Int) (malloc_ok : Nat → Bool)
    (old : CStr) (len : Nat) (res : xmmsc_dict_t) (d : Int)
    (hd0 : 0 ≤ d) (hd1 : d < 2 ^ 31)
    (hdict : xmmsc_result_dict_lookup res "duration".toList = some (xmmsc_value_t.int32 d))
    (hmalloc : ∀ i, malloc_ok i = true)
    (hlen : (printf_02d (d / 60000) ++ ':' :: printf_02d (d / 1000 % 60)).length < len) :
    xmmsc_entry_format missing malloc_ok (some old) len (some fmt_minutes_seconds) res =
      some { ret := ((printf_02d (d / 60000) ++ ':' :: printf_02d (d / 1000 % 60)).length : Int),
             target := some (printf_02d (d / 60000) ++ ':' :: printf_02d (d / 1000 % 60)) } ∧
    printf_02d (d / 60000) =
      (if (Nat.toDigits 10 (d / 60000).toNat).length < 2 then ['0'] else []) ++
        Nat.toDigits 10 (d / 60000).toNat ∧
    printf_02d (d / 1000 % 60) =
      (if (Nat.toDigits 10 (d / 1000 % 60).toNat).length < 2 then ['0'] else []) ++
        Nat.toDigits 10 (d / 1000 % 60).toNat ∧
    2 ≤ (printf_02d (d / 60000)).length ∧ 2 ≤ (printf_02d (d / 1000 % 60)).length ∧
    0 ≤ d / 1000 % 60 ∧ d / 1000 % 60 < 60 ∧ 60 * (d / 60000) + d / 1000 % 60 = d / 1000 ∧
    (d = 0 → printf_02d (d / 60000) ++ ':' :: printf_02d (d / 1000 % 60) = "00:00".toList) := by
  have hM0 : 0 ≤ d / 60000 := Int.ediv_nonneg hd0 (by norm_num)
  have hS0 : 0 ≤ d / 1000 % 60 := by omega
  have hMlen := printf_02d_length (d / 60000) hM0 (by omega)
  have hSlen := printf_02d_length (d / 1000 % 60) hS0 (by omega)
  simp only [List.length_append, List.length_cons] at hlen
  refine ⟨?_, printf_02d_nonneg _ hM0, printf_02d_nonneg _ hS0, hMlen.1, hSlen.1, hS0,
    by omega, by omega, ?_⟩
  · have c0 : cstr fmt_minutes_seconds = fmt_minutes_seconds := by decide
    have c1 : (fmt_minutes_seconds.length + 1) = 21 + 1 := by decide
    have k1 : strstr_key fmt_minutes_seconds = some 0 := by decide
    have k2 : strchr_rbrace (fmt_minutes_seconds.drop 0) = some 9 := by decide
    have k3 : ((fmt_minutes_seconds.drop 0).drop 2).take
        (strcspn_rbrace ((fmt_minutes_seconds.drop 0).drop 2)) = "minutes".toList := by
      decide
    have k4 : (fmt_minutes_seconds.drop 0).drop (9 + 1) = ":$\x7bseconds\x7d".toList := by
      decide
    have j1 : strstr_key ":$\x7bseconds\x7d".toList = some 1 := by decide
    have j2 : strchr_rbrace (":$\x7bseconds\x7d".toList.drop 1) = some 9 := by decide
    have j3 : ((":$\x7bseconds\x7d".toList.drop 1).drop 2).take
        (strcspn_rbrace ((":$\x7bseconds\x7d".toList.drop 1).drop 2)) =
        "seconds".toList := by
      decide
    have j4 : (":$\x7bseconds\x7d".toList.drop 1).drop (9 + 1) = [] := by decide
    have j5 : List.take 1 ":$\x7bseconds\x7d".toList = [':'] := by decide
    have t1 : strncat [] fmt_minutes_seconds (min 0 (len - ([] : CStr).length - 1)) = [] := by
      simp [strncat]
    have t2 : strncat [] (printf_02d (d / 60000)) (len - ([] : CStr).length - 1) =
        printf_02d (d / 60000) := by
      rw [strncat_of_room _ _ _ (by simp only [List.length_nil]; omega)]
      simp
    have t3 : strncat (printf_02d (d / 60000)) ":$\x7bseconds\x7d".toList
        (min 1 (len - (printf_02d (d / 60000)).length - 1)) =
        printf_02d (d / 60000) ++ [':'] := by
      have : min 1 (len - (printf_02d (d / 60000)).length - 1) = 1 := by omega
      rw [this, strncat, j5]
    have t4 : strncat (printf_02d (d / 60000) ++ [':']) (printf_02d (d / 1000 % 60))
        (len - (printf_02d (d / 60000) ++ [':']).length - 1) =
        printf_02d (d / 60000) ++ ':' :: printf_02d (d / 1000 % 60) := by
      rw [strncat_of_room _ _ _ (by
        simp only [List.length_append, List.length_cons, List.length_nil]; omega)]
      simp
    simp only [xmmsc_entry_format, c0, c1]
    rw [xmmsc_entry_format_loop_step missing malloc_ok len res 21 0 [] fmt_minutes_seconds
      0 9 (by simp only [List.length_nil]; omega) k1 (hmalloc 0) k2, k3, k4, t1,
      xmmsc_entry_format_key_minutes missing len res [] d hd0 hd1 hdict, t2]
    rw [xmmsc_entry_format_loop_step missing malloc_ok len res 20 1 (printf_02d (d / 60000))
      ":$\x7bseconds\x7d".toList 1 9 (by omega) j1 (hmalloc 1) j2, j3, j4, t3,
      xmmsc_entry_format_key_seconds missing len res _ d hd0 hd1 hdict, t4,
      xmmsc_entry_format_loop_end]
    simp
  · intro hz
    subst hz
    decide

/-- C14 on a duration of 125000 ms in a buffer of 64 bytes: the text is
"02:05"; and on 3600000 ms: "60:00". -/
theorem xmmsc_entry_format_minutes_seconds_witness :
    ((0 : Int) ≤ 125000 ∧ (125000 : Int) < 2 ^ 31) ∧
    xmmsc_result_dict_lookup sample_dict "duration".toList =
      some (xmmsc_value_t.int32 125000) ∧
    (printf_02d ((125000 : Int) / 60000) ++ ':' :: printf_02d ((125000 : Int) / 1000 % 60)).length
      < 64 ∧
    xmmsc_entry_format 0 (fun _ => true) (some []) 64 (some fmt_minutes_seconds)
      sample_dict = some { ret := 5, target := some "02:05".toList } :=
  ⟨by decide, by decide, by decide,
    (xmmsc_entry_format_minutes_seconds 0 (fun _ => true) [] 64 sample_dict 125000
      (by decide) (by decide) (by decide) (fun _ => rfl) (by decide)).1.trans (by decide)⟩

end Xmms
